import Mathlib

/-!
EventipDev: the My Tickets screen

A shallow embedding of `src/app/my-tickets/page.js`: the rows returned by the two
ticket tables, the enrichment of paid rows, the component state driven by
`fetchUserTickets` and `handleSearch`, and the parts of the rendered screen that
depend on that state (error banner, spinner, the "No tickets found" panel and the
three card sections).

Conventions of the embedding.
* A JavaScript value that is a string, `null` or `undefined` is an `Option String`;
  `none` stands for both `null` and `undefined`.
* React state updates are applied in program order; a functional update
  `setAllTickets(prev => ...)` receives the value left by the previous update.
* The backend is a black box: each of the two queries answers with a
  `QueryResult`, and every query issued is recorded in the list of effects.
-/

namespace MyTickets

/-! ## JavaScript values -/

/-- Numbers as far as the screen inspects them: `fin neg m e` is the double nearest to
`(-1)^neg * m * 10^e`. -/
inductive JsNum where
  | nan
  | posInf
  | negInf
  | fin (neg : Bool) (mant : Nat) (exp : Int)
  deriving DecidableEq, Repr

/-- The literal `0`. -/
def JsNum.zero : JsNum := .fin false 0 0

/-- Whether the magnitude `m * 10^e` is a nonzero double: a decimal at most `2^-1075`
(half of the least subnormal) rounds to zero, ties going to even. -/
def JsNum.nonzeroMag (m : Nat) (e : Int) : Bool :=
  if 0 ≤ e then decide (0 < m) else decide (10 ^ e.natAbs < m * 2 ^ 1075)

/-- The test `x > 0`. -/
def JsNum.gtZero : JsNum → Bool
  | .posInf => true
  | .fin false m e => JsNum.nonzeroMag m e
  | _ => false

/-- The test `x === 0` up to sign (`+0` or `-0`). -/
def JsNum.isZero : JsNum → Bool
  | .fin _ m e => !JsNum.nonzeroMag m e
  | _ => false

/-- A column value that may be a number or a string (`price_paid`). -/
inductive JsVal where
  | undefined
  | null
  | num (x : JsNum)
  | str (s : String)
  deriving DecidableEq, Repr

/-- Truthiness (`ToBoolean`) of a number-or-string value. -/
def JsVal.truthy : JsVal → Bool
  | .undefined => false
  | .null => false
  | .num .nan => false
  | .num x => !x.isZero
  | .str s => s != ""

/-- The expression `v || 0`. -/
def JsVal.orZero (v : JsVal) : JsVal :=
  if v.truthy then v else .num JsNum.zero

/-- Truthiness of a string-or-null value: only a non-empty string is truthy. -/
def truthy : Option String → Bool
  | some s => s != ""
  | none => false

/-- The expression `v || d` with a string default. -/
def orStr (v : Option String) (d : String) : String :=
  match v with
  | some s => if s != "" then s else d
  | none => d

/-- The expression `v || null`. -/
def orNull (v : Option String) : Option String :=
  if truthy v then v else none

/-- WhiteSpace and LineTerminator code points, the ones `String.prototype.trim` and
`parseFloat` strip. -/
def isJsWhitespace (c : Char) : Bool :=
  let n := c.toNat
  n == 0x09 || n == 0x0A || n == 0x0B || n == 0x0C || n == 0x0D || n == 0x20 ||
  n == 0xA0 || n == 0x1680 || (0x2000 ≤ n && n ≤ 0x200A) || n == 0x2028 ||
  n == 0x2029 || n == 0x202F || n == 0x205F || n == 0x3000 || n == 0xFEFF

/-- The method `s.trim()`. -/
def jsTrim (s : String) : String :=
  String.mk ((s.toList.dropWhile isJsWhitespace).reverse.dropWhile isJsWhitespace).reverse

/-- The value of a run of decimal digits. -/
def digitsToNat (ds : List Char) : Nat :=
  ds.foldl (fun acc c => acc * 10 + (c.toNat - 48)) 0

/-- The exponent part `e[+-]digits` at the head of `cs`, or `0` when there is none. -/
def parseExponent (cs : List Char) : Int :=
  match cs with
  | c :: r =>
    if c == 'e' || c == 'E' then
      match r with
      | '-' :: r2 =>
        let ds := r2.takeWhile Char.isDigit
        if ds.isEmpty then 0 else - (digitsToNat ds : Int)
      | '+' :: r2 =>
        let ds := r2.takeWhile Char.isDigit
        if ds.isEmpty then 0 else (digitsToNat ds : Int)
      | _ =>
        let ds := r.takeWhile Char.isDigit
        if ds.isEmpty then 0 else (digitsToNat ds : Int)
    else 0
  | [] => 0

/-- The unsigned part of a `StrDecimalLiteral` read from the front of `cs`. -/
def parseUnsigned (neg : Bool) (cs : List Char) : JsNum :=
  if "Infinity".toList.isPrefixOf cs then (if neg then .negInf else .posInf)
  else
    let ip := cs.takeWhile Char.isDigit
    let r1 := cs.dropWhile Char.isDigit
    match r1 with
    | '.' :: r =>
      let fp := r.takeWhile Char.isDigit
      let r2 := r.dropWhile Char.isDigit
      if ip.isEmpty && fp.isEmpty then .nan
      else .fin neg (digitsToNat (ip ++ fp)) (parseExponent r2 - (fp.length : Int))
    | _ =>
      if ip.isEmpty then .nan
      else .fin neg (digitsToNat ip) (parseExponent r1)

/-- The function `parseFloat` on the characters of a string: leading white space is
skipped and the longest prefix that is a decimal literal is read; `nan` when there is
none. -/
def parseFloatChars (cs : List Char) : JsNum :=
  match cs.dropWhile isJsWhitespace with
  | '-' :: r => parseUnsigned true r
  | '+' :: r => parseUnsigned false r
  | r => parseUnsigned false r

/-- The global `parseFloat(v)`: the argument is converted to a string and parsed. A number
prints and parses back to itself, `-0` printing as `0`; `null` and `undefined` print as
words that hold no number. -/
def parseFloat : JsVal → JsNum
  | .undefined => .nan
  | .null => .nan
  | .num x => if x.isZero then JsNum.zero else x
  | .str s => parseFloatChars s.toList

/-- The method `s.substring(0, n)` (for strings of the Basic Multilingual Plane). -/
def substring0 (s : String) (n : Nat) : String := s.take n

/-! ## Rows -/

/-- The joined `events (...)` record of a paid ticket. -/
structure Event where
  name : Option String := none
  event_date : Option String := none
  start_time : Option String := none
  city : Option String := none
  state : Option String := none
  address : Option String := none
  deriving DecidableEq, Repr

/-- A row as the screen holds it: the columns selected from `tickets` and from
`free_tickets`, the joined `events` record and the fields added by the enrichment. A
column that a table does not have is `none`. The purchase timestamp is kept as an
instant (a number), the value the database orders on. -/
structure Ticket where
  id : Option String := none
  event_id : Option String := none
  ticket_tier_id : Option String := none
  user_id : Option String := none
  customer_email : Option String := none
  customer_name : Option String := none
  customer_phone : Option String := none
  price_paid : JsVal := .null
  ticket_code : Option String := none
  ticket_type : Option String := none
  reference : Option String := none
  transaction_id : Option String := none
  status : Option String := none
  is_used : Option Bool := none
  checked_in_at : Option String := none
  checked_in_by : Option String := none
  purchase_date : Option Nat := none
  created_at : Option String := none
  updated_at : Option String := none
  events : Option Event := none
  event_title : Option String := none
  event_date : Option String := none
  event_time : Option String := none
  event_location : Option String := none
  deriving DecidableEq, Repr

/-- The optional chain `ticket.events?.f`. -/
def eventsField (ticket : Ticket) (f : Event → Option String) : Option String :=
  ticket.events.bind f

/-- The `event_location` template of the enrichment. -/
def eventLocation (ticket : Ticket) : String :=
  if truthy (eventsField ticket Event.address) then
    (eventsField ticket Event.address).getD "" ++ ", " ++
      orStr (eventsField ticket Event.city) "" ++
      (if truthy (eventsField ticket Event.state)
        then ", " ++ (eventsField ticket Event.state).getD "" else "")
  else
    orStr (eventsField ticket Event.city) "" ++
      (if truthy (eventsField ticket Event.state)
        then ", " ++ (eventsField ticket Event.state).getD "" else "")

/-- The body of `paidTicketsData.map(ticket => (...))`: the row with its display fields
filled in from the joined event. -/
def processPaidTicket (ticket : Ticket) : Ticket :=
  { ticket with
    event_title := some (orStr (eventsField ticket Event.name) "Unknown Event")
    event_date := orNull (eventsField ticket Event.event_date)
    event_time := orNull (eventsField ticket Event.start_time)
    event_location := some (eventLocation ticket) }

/-! ## Backend and effects -/

/-- What a failed call carries. -/
inductive JsError where
  | remote (message : String)
  | typeError
  deriving DecidableEq, Repr

/-- The outcome of awaiting one ticket query. -/
inductive QueryResult where
  | rows (data : List Ticket)
  | error (e : JsError)
  | nullData
  | thrown (e : JsError)
  deriving DecidableEq, Repr

/-- The two ticket tables, each answering a query by `customer_email` ordered by
`purchase_date` descending. -/
structure Backend where
  tickets : String → QueryResult
  free_tickets : String → QueryResult

/-- Observable actions of the handlers besides state updates. -/
inductive Effect where
  | preventDefault
  | consoleLog (message : String)
  | consoleError (label : String) (e : JsError)
  | query (table : String) (customerEmail : String)
  deriving DecidableEq, Repr

/-- Whether an effect is a query sent to the backend. -/
def Effect.isQuery : Effect → Bool
  | .query _ _ => true
  | _ => false

/-! ## Component state -/

/-- The stored user object, as far as the screen reads it. -/
structure User where
  email : Option String := none
  deriving DecidableEq, Repr

/-- The `useState` cells of `MyTickets`. -/
structure State where
  allTickets : List Ticket
  freeTickets : List Ticket
  paidTickets : List Ticket
  loading : Bool
  error : Option String
  email : String
  searched : Bool
  user : Option User
  isLoading : Bool
  deriving DecidableEq, Repr

/-- The state at first render. -/
def State.initial : State :=
  { allTickets := [], freeTickets := [], paidTickets := [], loading := false,
    error := none, email := "", searched := false, user := none, isLoading := true }

/-- The inner `try` around the paid query. -/
def paidStep (r : QueryResult) (s : State) : State × List Effect :=
  match r with
  | .error e => (s, [.consoleError "Error fetching paid tickets:" e])
  | .rows data =>
    let processedPaidTickets := data.map processPaidTicket
    ({ s with paidTickets := processedPaidTickets,
              allTickets := s.allTickets ++ processedPaidTickets },
     [.consoleLog ("Paid tickets fetched: " ++ toString data.length ++ " tickets found")])
  | .nullData => (s, [.consoleError "Error in paid tickets query:" .typeError])
  | .thrown e => (s, [.consoleError "Error in paid tickets query:" e])

/-- The inner `try` around the free query. -/
def freeStep (r : QueryResult) (s : State) : State × List Effect :=
  match r with
  | .error e => (s, [.consoleError "Error fetching free tickets:" e])
  | .rows data =>
    ({ s with freeTickets := data, allTickets := s.allTickets ++ data },
     [.consoleLog ("Free tickets fetched: " ++ toString data.length ++ " tickets found")])
  | .nullData => (s, [.consoleError "Error in free tickets query:" .typeError])
  | .thrown e => (s, [.consoleError "Error in free tickets query:" e])

/-- The function `fetchUserTickets(userEmail)`, run to completion. -/
def fetchUserTickets (db : Backend) (s : State) (userEmail : String) : State × List Effect :=
  if userEmail = "" then (s, [])
  else
    let s0 : State :=
      { s with error := none, allTickets := [], freeTickets := [], paidTickets := [],
               loading := true, searched := true }
    let p := paidStep (db.tickets userEmail) s0
    let f := freeStep (db.free_tickets userEmail) p.1
    ({ f.1 with loading := false },
     [.consoleLog ("Fetching paid tickets for user: " ++ userEmail),
      .query "tickets" userEmail] ++ p.2 ++
     [.consoleLog ("Fetching free tickets for user: " ++ userEmail),
      .query "free_tickets" userEmail] ++ f.2)

/-- The form handler `handleSearch(e)`, reading the `email` cell. -/
def handleSearch (db : Backend) (s : State) : State × List Effect :=
  if jsTrim s.email = "" then
    ({ s with error := some "Please enter an email address to search" }, [.preventDefault])
  else
    let r := fetchUserTickets db s s.email
    (r.1, .preventDefault :: r.2)

/-! ## Rendering -/

/-- The texts of one ticket card that depend on the row. `price = some n` is the text
of the currency sign followed by `n.toLocaleString()`; `freeBadge` is the literal badge
"Free". -/
structure Card where
  title : String
  statusLabel : String
  typeLabel : String
  location : Option String
  price : Option JsNum
  freeBadge : Bool
  deriving DecidableEq, Repr

/-- The card heading `ticket.event_title || "Event ID: <first 8 of event_id>..."`. -/
def cardTitle (ticket : Ticket) : String :=
  if truthy ticket.event_title then ticket.event_title.getD ""
  else "Event ID: " ++
    (match ticket.event_id with
      | some i => substring0 i 8
      | none => "undefined") ++ "..."

/-- The block `ticket.event_location && (...)`. -/
def cardLocation (ticket : Ticket) : Option String :=
  if truthy ticket.event_location then ticket.event_location else none

/-- A card of the All Tickets section. -/
def allCard (ticket : Ticket) : Card :=
  { title := cardTitle ticket
    statusLabel := orStr ticket.status "unknown"
    typeLabel := orStr ticket.ticket_type "Standard Ticket"
    location := cardLocation ticket
    price := if (parseFloat ticket.price_paid).gtZero
      then some (parseFloat ticket.price_paid.orZero) else none
    freeBadge := false }

/-- A card of the Free Tickets section. -/
def freeCard (ticket : Ticket) : Card :=
  { title := cardTitle ticket
    statusLabel := orStr ticket.status "active"
    typeLabel := orStr ticket.ticket_type "Free Ticket"
    location := cardLocation ticket
    price := none
    freeBadge := true }

/-- A card of the Paid Tickets section. -/
def paidCard (ticket : Ticket) : Card :=
  { title := cardTitle ticket
    statusLabel := orStr ticket.status "unknown"
    typeLabel := orStr ticket.ticket_type "Premium Ticket"
    location := cardLocation ticket
    price := some (parseFloat ticket.price_paid.orZero)
    freeBadge := false }

/-- The state-dependent parts of the screen; a section that is not rendered is `none`. -/
structure View where
  errorBanner : Option String
  spinner : Bool
  noTicketsPanel : Bool
  allSection : Option (List Card)
  freeSection : Option (List Card)
  paidSection : Option (List Card)
  deriving DecidableEq, Repr

/-- The JSX of `MyTickets` as a function of the state. -/
def render (s : State) : View :=
  { errorBanner := if truthy s.error then s.error else none
    spinner := s.loading
    noTicketsPanel := s.searched && !s.loading && s.allTickets.length == 0 &&
      s.paidTickets.length == 0 && s.freeTickets.length == 0
    allSection := if s.searched && !s.loading && decide (0 < s.allTickets.length)
      then some (s.allTickets.map allCard) else none
    freeSection := if s.searched && !s.loading && decide (0 < s.freeTickets.length)
      then some (s.freeTickets.map freeCard) else none
    paidSection := if s.searched && !s.loading && decide (0 < s.paidTickets.length)
      then some (s.paidTickets.map paidCard) else none }

/-- Rows ordered by purchase timestamp descending, a missing timestamp sorting first as
the database does for a descending key. -/
def notOlder (a b : Ticket) : Prop :=
  match a.purchase_date, b.purchase_date with
  | none, _ => True
  | some _, none => False
  | some x, some y => y ≤ x

instance (a b : Ticket) : Decidable (notOlder a b) := by
  unfold notOlder; split <;> infer_instance

/-- A list of rows in descending purchase order. -/
def orderedDesc (l : List Ticket) : Prop := l.Pairwise notOlder

instance (l : List Ticket) : Decidable (orderedDesc l) := by
  unfold orderedDesc; infer_instance

/-! ## Sample data -/

/-- A paid row bought at instant `t` whose event join is present. -/
def samplePaid (i : String) (t : Nat) : Ticket :=
  { id := some i, event_id := some "0a1b2c3d-4e5f-6789", customer_email := some "a@x.com",
    price_paid := .num (.fin false 5000 0), purchase_date := some t,
    events := some { name := some "Lagos Jazz Night", city := some "Lagos" } }

/-- A free row issued at instant `t`. -/
def sampleFree (i : String) (t : Nat) : Ticket :=
  { id := some i, event_id := some "9f8e7d6c-5b4a-3210", customer_email := some "a@x.com",
    customer_name := some "Ada", price_paid := .num JsNum.zero, purchase_date := some t,
    event_title := some "Community Meetup" }

/-- The tables of the scenario: `a@x.com` has two paid rows and one free row, every other
address has none. -/
def sampleDb : Backend :=
  { tickets := fun e =>
      if e = "a@x.com" then .rows [samplePaid "p2" 300, samplePaid "p1" 100] else .rows []
    free_tickets := fun e =>
      if e = "a@x.com" then .rows [sampleFree "f1" 200] else .rows [] }

/-- A backend whose paid table is unreachable. -/
def paidDownDb : Backend :=
  { tickets := fun _ => .error (.remote "relation tickets is unavailable")
    free_tickets := sampleDb.free_tickets }

/-- A backend whose free table is unreachable. -/
def freeDownDb : Backend :=
  { tickets := sampleDb.tickets
    free_tickets := fun _ => .thrown (.remote "Failed to fetch") }

/-- A paid row whose stored price is the string `"0"`. -/
def zeroPricedPaid : Ticket :=
  { id := some "p3", event_id := some "0a1b2c3d-4e5f-6789", customer_email := some "a@x.com",
    price_paid := .str "0", purchase_date := some 400,
    events := some { name := some "Lagos Jazz Night", city := some "Lagos" } }

/-- A backend holding the zero-priced paid row only. -/
def zeroPriceDb : Backend :=
  { tickets := fun _ => .rows [zeroPricedPaid]
    free_tickets := fun _ => .rows [] }

/-- A paid row whose event join came back empty. -/
def orphanPaid : Ticket :=
  { id := some "p4", event_id := some "0a1b2c3d-4e5f-6789", customer_email := some "a@x.com",
    price_paid := .num (.fin false 2500 0), purchase_date := some 500, events := none }

/-- A backend holding the orphan paid row only. -/
def orphanDb : Backend :=
  { tickets := fun _ => .rows [orphanPaid]
    free_tickets := fun _ => .rows [] }

/-- A screen left by an earlier search, with the form cleared to blanks. -/
def staleBlankState : State :=
  { allTickets := [sampleFree "f1" 200], freeTickets := [sampleFree "f1" 200],
    paidTickets := [], loading := false, error := none, email := "  \t ",
    searched := true, user := none, isLoading := false }

/-- A query that did not deliver rows: an error result, a null payload or a rejection. -/
def QueryResult.failed : QueryResult → Bool
  | .rows _ => false
  | _ => true

/-! ## Exceptions in `fetchUserTickets`

The same function with the exceptions of its two inner `try` blocks made explicit: a
block either completes with a state and its effects or is left by a thrown value. -/

/-- The statements inside the inner `try` of the paid query. The awaited call may
reject; reading `paidTicketsData.length` on a null payload throws a `TypeError`. -/
def paidTry (r : QueryResult) (s : State) : Except JsError (State × List Effect) :=
  match r with
  | .thrown e => .error e
  | .error e => .ok (s, [.consoleError "Error fetching paid tickets:" e])
  | .nullData => .error .typeError
  | .rows data =>
    let processedPaidTickets := data.map processPaidTicket
    .ok ({ s with paidTickets := processedPaidTickets,
                  allTickets := s.allTickets ++ processedPaidTickets },
         [.consoleLog ("Paid tickets fetched: " ++ toString data.length ++ " tickets found")])

/-- The statements inside the inner `try` of the free query. -/
def freeTry (r : QueryResult) (s : State) : Except JsError (State × List Effect) :=
  match r with
  | .thrown e => .error e
  | .error e => .ok (s, [.consoleError "Error fetching free tickets:" e])
  | .nullData => .error .typeError
  | .rows data =>
    .ok ({ s with freeTickets := data, allTickets := s.allTickets ++ data },
         [.consoleLog ("Free tickets fetched: " ++ toString data.length ++ " tickets found")])

/-- The handler `catch (error) { console.error(label, error) }` of an inner block entered
in state `s`: both blocks throw, if at all, before their first state update. -/
def catchLog (label : String) (s : State) (body : Except JsError (State × List Effect)) :
    State × List Effect :=
  match body with
  | .ok r => r
  | .error e => (s, [.consoleError label e])

/-- The body of the outer `try` of `fetchUserTickets`, entered after the guard. -/
def fetchBody (db : Backend) (s : State) (userEmail : String) :
    Except JsError (State × List Effect) :=
  let s0 : State :=
    { s with error := none, allTickets := [], freeTickets := [], paidTickets := [],
             loading := true, searched := true }
  let p := catchLog "Error in paid tickets query:" s0 (paidTry (db.tickets userEmail) s0)
  let f := catchLog "Error in free tickets query:" p.1
    (freeTry (db.free_tickets userEmail) p.1)
  .ok (f.1,
     [.consoleLog ("Fetching paid tickets for user: " ++ userEmail),
      .query "tickets" userEmail] ++ p.2 ++
     [.consoleLog ("Fetching free tickets for user: " ++ userEmail),
      .query "free_tickets" userEmail] ++ f.2)

/-- The function `fetchUserTickets` with its outer `try`/`catch`/`finally`: `.error` would
be a failure that leaves the function uncaught. -/
def fetchUserTicketsExc (db : Backend) (s : State) (userEmail : String) :
    Except JsError (State × List Effect) :=
  if userEmail = "" then .ok (s, [])
  else
    match fetchBody db s userEmail with
    | .ok r => .ok ({ r.1 with loading := false }, r.2)
    | .error err =>
      .ok ({ s with error := some "Error fetching your tickets. Please try again.",
                    loading := false },
           [.consoleError "Error fetching tickets:" err])

/-- A paid row whose joined event record has no name. -/
def namelessEventPaid : Ticket :=
  { id := some "p5", event_id := some "0a1b2c3d-4e5f-6789", customer_email := some "a@x.com",
    price_paid := .num (.fin false 1000 0), purchase_date := some 600,
    events := some { name := none, event_date := some "2025-03-01",
                     start_time := some "18:00", city := some "Abuja" } }

/-- A paid row whose joined event record is complete. -/
def fullEventPaid : Ticket :=
  { id := some "p6", event_id := some "0a1b2c3d-4e5f-6789", customer_email := some "a@x.com",
    price_paid := .num (.fin false 1000 0), purchase_date := some 700,
    events := some { name := some "Lagos Jazz Night", event_date := some "2025-03-01",
                     start_time := some "18:00", city := some "Lagos", state := some "LA",
                     address := some "12 Marina Road" } }

/-- A first render with an address typed in mixed case between blanks. -/
def paddedEmailState : State :=
  { State.initial with email := "  Ada@X.com " }

/-- A backend whose paid query resolves to a null payload and whose free query rejects. -/
def brokenDb : Backend :=
  { tickets := fun _ => .nullData
    free_tickets := fun _ => .thrown (.remote "Failed to fetch") }

end MyTickets

/-!
The catalog screen

The embedding of `src/app/page.js`: the derived fields `fetchEvents` computes for each
event, the ordering of the processed events and the modal flags driven by
`handleGetTickets`. Numeric columns arrive as JSON numbers or null: prices and discounts
are rationals, quantities are integers, and a date is the instant `new Date(...)` denotes.
Texts produced by `toLocaleDateString` and `toLocaleString` are left out; console output
is not recorded.
-/

namespace Catalog

open MyTickets (truthy orStr)

/-- A row of the joined `ticket_tiers`. -/
structure Tier where
  id : Option String := none
  name : Option String := none
  price : Option ℚ := none
  quantity : Option Int := none
  quantity_sold : Option Int := none
  paid_quantity_sold : Option Int := none
  is_premium : Option Bool := none
  description : Option String := none
  tier_price : Option ℚ := none
  tier_quantity : Option Int := none
  tier_description : Option String := none
  deriving DecidableEq, Repr

/-- A row of the joined `event_images`. -/
structure EventImage where
  image_url : Option String := none
  is_cover : Option Bool := none
  deriving DecidableEq, Repr

/-- A row of `events` with its joins; a join that is not an array is `none`. -/
structure RawEvent where
  id : Option String := none
  name : Option String := none
  description : Option String := none
  event_date : Option Int := none
  start_time : Option String := none
  city : Option String := none
  state : Option String := none
  address : Option String := none
  has_early_bird : Option Bool := none
  early_bird_discount : Option ℚ := none
  early_bird_start_date : Option Int := none
  early_bird_end_date : Option Int := none
  has_multiple_buys : Option Bool := none
  multiple_buys_discount : Option ℚ := none
  multiple_buys_min_tickets : Option Int := none
  event_images : Option (List EventImage) := none
  ticket_tiers : Option (List Tier) := none
  deriving DecidableEq, Repr

/-- The test `tier?.price > 0`; a null price compares as `0`. -/
def Tier.pricePositive (tier : Tier) : Bool :=
  decide (0 < tier.price.getD 0)

/-- The test `tier?.price === 0`, which a null price does not pass. -/
def Tier.priceIsZero (tier : Tier) : Bool :=
  decide (tier.price = some 0)

/-- The term `tier?.quantity - (tier?.paid_quantity_sold || 0)`; a null quantity counts
as `0`. -/
def Tier.paidRemaining (tier : Tier) : Int :=
  tier.quantity.getD 0 - tier.paid_quantity_sold.getD 0

/-- The term `tier?.quantity - (tier?.quantity_sold || 0)`. -/
def Tier.freeRemaining (tier : Tier) : Int :=
  tier.quantity.getD 0 - tier.quantity_sold.getD 0

/-- The test `tier?.quantity <= (tier?.paid_quantity_sold || 0)`. -/
def Tier.paidSoldOut (tier : Tier) : Bool :=
  decide (tier.quantity.getD 0 ≤ tier.paid_quantity_sold.getD 0)

/-- The test `tier?.quantity <= (tier?.quantity_sold || 0)`. -/
def Tier.freeSoldOut (tier : Tier) : Bool :=
  decide (tier.quantity.getD 0 ≤ tier.quantity_sold.getD 0)

/-- The list `ticketTiers.map(tier => tier?.price || 0).filter(price => price > 0)`. -/
def positivePrices (ticketTiers : List Tier) : List ℚ :=
  (ticketTiers.map (fun tier => tier.price.getD 0)).filter (fun price => decide (0 < price))

/-- The value of `lowestPrice` after the block `if (ticketTiers.length > 0)`;
`Math.min(...prices)` of a non-empty list is its least element. -/
def lowestPrice (ticketTiers : List Tier) : ℚ :=
  if 0 < ticketTiers.length then
    match positivePrices ticketTiers with
    | [] => 0
    | p :: ps => ps.foldl min p
  else 0

/-- The value of `totalTickets` after the block. -/
def totalTickets (ticketTiers : List Tier) : Int :=
  if 0 < ticketTiers.length then
    if 0 < lowestPrice ticketTiers then
      (ticketTiers.filter Tier.pricePositive).foldl (fun sum tier => sum + tier.paidRemaining) 0
    else
      (ticketTiers.filter Tier.priceIsZero).foldl (fun sum tier => sum + tier.freeRemaining) 0
  else 0

/-- The value of `isSoldOut` after the block. -/
def isSoldOut (ticketTiers : List Tier) : Bool :=
  if 0 < ticketTiers.length then
    if 0 < lowestPrice ticketTiers then
      (ticketTiers.filter Tier.pricePositive).all Tier.paidSoldOut
    else
      (ticketTiers.filter Tier.priceIsZero).all Tier.freeSoldOut
  else false

/-- The card field `price`: the text "Free" or the currency sign followed by the amount. -/
inductive PriceLabel where
  | free
  | amount (value : ℚ)
  deriving DecidableEq, Repr

/-- The card field `ticketCount`: a text or the number of tickets left. -/
inductive TicketCount where
  | text (s : String)
  | count (n : Int)
  deriving DecidableEq, Repr

/-- An element of `processedEvents`. -/
structure ProcessedEvent where
  id : Option String
  title : String
  image : String
  eventDate : Option Int
  time : String
  location : String
  address : String
  price : PriceLabel
  ticketCount : TicketCount
  description : Option String
  has_early_bird : Bool
  early_bird_discount : ℚ
  early_bird_start_date : Option Int
  early_bird_end_date : Option Int
  has_multiple_buys : Bool
  multiple_buys_discount : ℚ
  multiple_buys_min_tickets : Int
  hasDiscounts : Bool
  discountAmount : ℚ
  isSoldOut : Bool
  ticket_tiers : List Tier
  deriving DecidableEq, Repr

/-- The cover image `eventImages.find(img => img?.is_cover)?.image_url` or the
placeholder. -/
def coverImage (eventImages : List EventImage) : String :=
  orStr ((eventImages.find? (fun img => img.is_cover.getD false)).bind EventImage.image_url)
    "/placeholder-event.jpg"

/-- The `location` template. -/
def eventLocation (event : RawEvent) : String :=
  if truthy event.address then
    event.address.getD "" ++ ", " ++ orStr event.city "" ++
      (if truthy event.state then ", " ++ event.state.getD "" else "")
  else
    orStr event.city "" ++ (if truthy event.state then ", " ++ event.state.getD "" else "")

/-- The value `x || d` for a nullable integer, `0` being falsy. -/
def intOr (x : Option Int) (d : Int) : Int :=
  match x with
  | some n => if n = 0 then d else n
  | none => d

/-- The callback of `events.map(event => ...)`. -/
def processEvent (event : RawEvent) : ProcessedEvent :=
  let ticketTiers := event.ticket_tiers.getD []
  { id := event.id
    title := orStr event.name "Untitled Event"
    image := coverImage (event.event_images.getD [])
    eventDate := event.event_date
    time := orStr event.start_time "Time TBA"
    location := eventLocation event
    address := orStr event.address ""
    price := if lowestPrice ticketTiers = 0 then .free else .amount (lowestPrice ticketTiers)
    ticketCount := if isSoldOut ticketTiers then .text "No available ticket for this event"
      else .count (totalTickets ticketTiers)
    description := event.description
    has_early_bird := event.has_early_bird.getD false
    early_bird_discount := event.early_bird_discount.getD 0
    early_bird_start_date := event.early_bird_start_date
    early_bird_end_date := event.early_bird_end_date
    has_multiple_buys := event.has_multiple_buys.getD false
    multiple_buys_discount := event.multiple_buys_discount.getD 0
    multiple_buys_min_tickets := intOr event.multiple_buys_min_tickets 2
    hasDiscounts := event.has_early_bird.getD false || event.has_multiple_buys.getD false
    discountAmount := max (event.early_bird_discount.getD 0) (event.multiple_buys_discount.getD 0)
    isSoldOut := isSoldOut ticketTiers
    ticket_tiers := ticketTiers }

/-- The comparator passed to `processedEvents.sort`. -/
def compareEvents (a b : ProcessedEvent) : Int :=
  match a.eventDate, b.eventDate with
  | none, _ => 1
  | some _, none => -1
  | some x, some y => y - x

/-- One step of the insertion: `pivot` goes before the first element the comparator puts
it strictly before. -/
def insertSorted {α : Type} (cmp : α → α → Int) (pivot : α) : List α → List α
  | [] => [pivot]
  | e :: rest =>
    if cmp pivot e < 0 then pivot :: e :: rest else e :: insertSorted cmp pivot rest

/-- The method `Array.prototype.sort(cmp)` as the stable insertion sort: the elements
are taken left to right and each is placed after every element it does not strictly
precede. -/
def arraySort {α : Type} (cmp : α → α → Int) (l : List α) : List α :=
  l.foldl (fun acc x => insertSorted cmp x acc) []

/-- The list `sortedEvents`. -/
def sortedEvents (events : List RawEvent) : List ProcessedEvent :=
  arraySort compareEvents (events.map processEvent)

/-- A thrown value as the `catch` of `fetchEvents` inspects it. -/
structure Thrown where
  isTypeError : Bool
  message : Option String
  deriving DecidableEq, Repr

/-- The outcome of awaiting the events query. -/
inductive EventsResult where
  | rows (events : List RawEvent)
  | nullData
  | error (message : Option String)
  | thrown (e : Thrown)
  deriving DecidableEq, Repr

/-- A tier as handed to the ticket modal: the row and the fields laid over it. -/
structure FormattedTier where
  tier : Tier
  price : ℚ
  quantity : Int
  paid_quantity_sold : Int
  quantity_sold : Int
  id : String
  availableQuantity : Int
  isPremium : Bool
  soldOut : Bool
  deriving DecidableEq, Repr

/-- The value `formattedEvent`: the event and the fields laid over it. -/
structure FormattedEvent where
  event : ProcessedEvent
  early_bird_start_date : Option Int
  early_bird_end_date : Option Int
  ticket_tiers : List FormattedTier
  deriving DecidableEq, Repr

/-- What `selectedEvent` can hold. -/
inductive Selected where
  | card (event : ProcessedEvent)
  | formatted (event : FormattedEvent)
  deriving DecidableEq, Repr

/-- The `useState` cells of `Home`. -/
structure HomeState where
  featuredEvents : List ProcessedEvent
  trendingEvents : List ProcessedEvent
  upcomingEvents : List ProcessedEvent
  isLoading : Bool
  errorMessage : Option String
  selectedEvent : Option Selected
  showModal : Bool
  showTicketModal : Bool
  showLoginPrompt : Bool
  deriving DecidableEq, Repr

/-- The state at first render. -/
def HomeState.initial : HomeState :=
  { featuredEvents := [], trendingEvents := [], upcomingEvents := [], isLoading := true,
    errorMessage := none, selectedEvent := none, showModal := false,
    showTicketModal := false, showLoginPrompt := false }

/-- The function `fetchEvents`, run to completion; `clientReady` is the truthiness of
the `supabase` handle. -/
def fetchEvents (clientReady : Bool) (r : EventsResult) (s : HomeState) : HomeState :=
  if !clientReady then
    { s with errorMessage := some "Database connection error", isLoading := false }
  else
    match r with
    | .error _ => { s with errorMessage := some "Error loading events", isLoading := false }
    | .nullData => { s with upcomingEvents := [], isLoading := false }
    | .rows events =>
      if events.length = 0 then { s with upcomingEvents := [], isLoading := false }
      else
        { s with featuredEvents := (sortedEvents events).take 3,
                 trendingEvents := (sortedEvents events).take 2,
                 upcomingEvents := sortedEvents events,
                 isLoading := false }
    | .thrown e =>
      { s with
        errorMessage :=
          if e.isTypeError && e.message == some "Failed to fetch" then
            some "Network connection error. Please check your internet connection."
          else some ("Error: " ++ orStr e.message "Unknown error occurred"),
        upcomingEvents := [],
        isLoading := false }

/-- The callback of `event.ticket_tiers.map(tier => ...)` in `handleGetTickets`. -/
def formatTier (tier : Tier) : FormattedTier :=
  { tier := tier
    price := tier.price.getD 0
    quantity := tier.quantity.getD 0
    paid_quantity_sold := tier.paid_quantity_sold.getD 0
    quantity_sold := tier.quantity_sold.getD 0
    id := orStr tier.id "default"
    availableQuantity := tier.quantity.getD 0 - tier.paid_quantity_sold.getD 0
    isPremium := tier.is_premium.getD false
    soldOut := decide (tier.quantity.getD 0 - tier.paid_quantity_sold.getD 0 ≤ 0) }

/-- The value `formattedEvent` of `handleGetTickets`. -/
def formatEvent (event : ProcessedEvent) : FormattedEvent :=
  { event := event
    early_bird_start_date := event.early_bird_start_date
    early_bird_end_date := event.early_bird_end_date
    ticket_tiers := event.ticket_tiers.map formatTier }

/-- The handler `handleGetTickets(event, e)`; `storedUser` is what
`localStorage.getItem('user')` returns. -/
def handleGetTickets (storedUser : Option String) (s : HomeState) (event : ProcessedEvent) :
    HomeState :=
  if !truthy storedUser then
    { s with selectedEvent := some (.card event), showLoginPrompt := true }
  else
    { s with selectedEvent := some (.formatted (formatEvent event)),
             showModal := false, showTicketModal := true }

/-- The preview modal is on screen: `showModal && selectedEvent`. -/
def previewShown (s : HomeState) : Bool := s.showModal && s.selectedEvent.isSome

/-- The ticket purchase modal is on screen: `showTicketModal && selectedEvent`. -/
def ticketModalShown (s : HomeState) : Bool := s.showTicketModal && s.selectedEvent.isSome

/-- The login prompt is on screen: `showLoginPrompt`. -/
def loginPromptShown (s : HomeState) : Bool := s.showLoginPrompt

/-- The order the comparator aims at: a dated event stands before an undated one, and
of two dated events the later one stands first. -/
def newestFirst (a b : ProcessedEvent) : Prop :=
  match a.eventDate, b.eventDate with
  | some x, some y => y ≤ x
  | some _, none => True
  | none, some _ => False
  | none, none => True

/-- A tier with the given price, stock and sales. -/
def sampleTier (price : Option ℚ) (quantity sold paidSold : Int) : Tier :=
  { id := some "t", price := price, quantity := some quantity, quantity_sold := some sold,
    paid_quantity_sold := some paidSold }

/-- An event with a standard tier at 5000 and a premium tier at 2500, dated 300. -/
def paidEvent : RawEvent :=
  { id := some "e1", name := some "Lagos Jazz Night", event_date := some 300,
    ticket_tiers := some [sampleTier (some 5000) 100 0 40, sampleTier (some 2500) 50 0 50] }

/-- An event with one free tier, dated 100. -/
def freeEvent : RawEvent :=
  { id := some "e2", name := some "Community Meetup", event_date := some 100,
    ticket_tiers := some [sampleTier (some 0) 30 30 0] }

/-- An event without tiers and without a date. -/
def bareEvent : RawEvent :=
  { id := some "e3", name := some "Save the Date", event_date := none,
    ticket_tiers := some [] }

/-- An event with one sold-out paid tier, dated 200. -/
def lateEvent : RawEvent :=
  { id := some "e4", name := some "Tech Summit", event_date := some 200,
    ticket_tiers := some [sampleTier (some 1500) 10 0 10] }

end Catalog

/-!
The news lists

The row range requested by the public list (`src/app/news/page.js`) and by the admin list
(`src/app/admin/news/page.js`); page numbers and row indices are integers.
-/

namespace News

/-- The constant `pageSize` of the public list. -/
def pageSize : Int := 9

/-- The pair `(from, to)` handed to `.range(from, to)` by `fetchNewsData`. -/
def pageRange (currentPage : Int) : Int × Int :=
  let fromRow := (currentPage - 1) * pageSize
  let toRow := fromRow + pageSize - 1
  (fromRow, toRow)

end News

namespace AdminNews

/-- The constant `pageSize` of the admin list. -/
def pageSize : Int := 10

/-- The pair `(from, to)` handed to `.range(from, to)` by `fetchPosts`. -/
def pageRange (currentPage : Int) : Int × Int :=
  let fromRow := (currentPage - 1) * pageSize
  let toRow := fromRow + pageSize - 1
  (fromRow, toRow)

end AdminNews

/-!
The create-post form

The embedding of the slug generation of `src/app/admin/news/create/page.js`. The Unicode
case mapping `String.prototype.toLowerCase` is a parameter.
-/

namespace CreatePost

open MyTickets (isJsWhitespace jsTrim)

/-- The characters outside the removed class `[^a-z0-9\s-]`. -/
def keptBySlug (c : Char) : Bool :=
  c.isLower || c.isDigit || isJsWhitespace c || c == '-'

/-- The global replacement of `p+` by `r` for a character class `p`: every maximal run of
characters of the class becomes one `r`; the flag tells whether a run is being read. -/
def replaceRuns (p : Char → Bool) (r : Char) : Bool → List Char → List Char
  | _, [] => []
  | inRun, c :: cs =>
    if p c then
      if inRun then replaceRuns p r true cs else r :: replaceRuns p r true cs
    else c :: replaceRuns p r false cs

/-- The chain on `value`: `toLowerCase()`, removal of every character outside
`[a-z0-9\s-]`, each run of white space replaced by one hyphen, each run of hyphens
replaced by one hyphen, `trim()`. -/
def slugify (toLowerCase : String → String) (value : String) : String :=
  jsTrim (String.mk
    (replaceRuns (fun c => c == '-') '-' false
      (replaceRuns isJsWhitespace '-' false
        ((toLowerCase value).toList.filter keptBySlug))))

/-- The cell `formData`. -/
structure FormData where
  title : String
  slug : String
  excerpt : String
  content : String
  category : String
  status : String
  is_featured : Bool
  author : String
  deriving DecidableEq, Repr

/-- The initial `formData`. -/
def FormData.initial : FormData :=
  { title := "", slug := "", excerpt := "", content := "", category := "company",
    status := "draft", is_featured := false, author := "" }

/-- The text inputs and selects of the form that call `handleChange`, by `name`. -/
inductive Field where
  | title
  | author
  | slug
  | category
  | status
  | excerpt
  | content
  deriving DecidableEq, Repr

/-- The target of a change event: a text input or select with its value, or the
`is_featured` checkbox. -/
inductive Input where
  | text (name : Field) (value : String)
  | checkbox (checked : Bool)
  deriving DecidableEq, Repr

/-- The update `{ ...prev, [name]: value }`. -/
def FormData.set (prev : FormData) (name : Field) (value : String) : FormData :=
  match name with
  | .title => { prev with title := value }
  | .author => { prev with author := value }
  | .slug => { prev with slug := value }
  | .category => { prev with category := value }
  | .status => { prev with status := value }
  | .excerpt => { prev with excerpt := value }
  | .content => { prev with content := value }

/-- The handler `handleChange(e)`. -/
def handleChange (toLowerCase : String → String) (prev : FormData) (e : Input) : FormData :=
  match e with
  | .checkbox checked => { prev with is_featured := checked }
  | .text .title value =>
    { (prev.set .title value) with slug := slugify toLowerCase value }
  | .text name value => prev.set name value

/-- The field `slug` of `postData` in `handleSubmit`: `formData.slug`, or the same chain
on `formData.title` when the slug is empty. -/
def postSlug (toLowerCase : String → String) (formData : FormData) : String :=
  if formData.slug != "" then formData.slug else slugify toLowerCase formData.title

/-- The case mapping on the letters `A` to `Z`, other characters kept. -/
def asciiLower (s : String) : String := String.mk (s.toList.map Char.toLower)

end CreatePost

/-!
The private ticket viewer

The embedding of `TicketContent` in `src/app/view-private-ticket/page.js`: the fetch of
one record, `formatTime`, `generateQRData` and the parts of the rendered ticket that read
the record. Reading a property of `null` or `undefined` throws a `TypeError`, which
nothing in the component catches; such a failure is the result `.error`. The
locale-dependent `toLocaleDateString` and the Unicode `toUpperCase` are parameters.
-/

namespace PrivateTicket

open MyTickets (truthy orStr isJsWhitespace JsError)

/-- The JSON column `event_data`. -/
structure EventData where
  event_name : Option String := none
  description : Option String := none
  event_start_date : Option String := none
  start_time : Option String := none
  end_time : Option String := none
  address : Option String := none
  city : Option String := none
  state : Option String := none
  country : Option String := none
  cover_image_url : Option String := none
  price : Option String := none
  deriving DecidableEq, Repr

/-- A row of `private_event_tickets` as far as the viewer reads it. -/
structure TicketRecord where
  id : Option String := none
  event_data : Option EventData := none
  buyer_name : Option String := none
  buyer_email : Option String := none
  customer_email : Option String := none
  ticket_code : Option String := none
  reference : Option String := none
  status : Option String := none
  quantity : Option Int := none
  is_paid : Option Bool := none
  price_paid : Option String := none
  deriving DecidableEq, Repr

/-- The built-in text functions the viewer calls. -/
structure Builtins where
  toLocaleDateString : String → String
  toUpperCase : String → String

/-- The function `formatDate(dateString)`. -/
def formatDate (b : Builtins) (dateString : Option String) : String :=
  match dateString with
  | some d => if d != "" then b.toLocaleDateString d else "Not specified"
  | none => "Not specified"

/-- The method `s.split(sep)` for a one-character separator. -/
def splitOn (sep : Char) : List Char → List (List Char)
  | [] => [[]]
  | c :: cs =>
    if c = sep then [] :: splitOn sep cs
    else
      match splitOn sep cs with
      | [] => [[c]]
      | h :: t => (c :: h) :: t

/-- The call `parseInt(s, 10)`: leading white space and a sign are skipped and the longest
run of decimal digits is read; `none` is `NaN`. -/
def parseInt10 (cs : List Char) : Option Int :=
  match cs.dropWhile isJsWhitespace with
  | '-' :: r =>
    let ds := r.takeWhile Char.isDigit
    if ds.isEmpty then none else some (- (MyTickets.digitsToNat ds : Int))
  | '+' :: r =>
    let ds := r.takeWhile Char.isDigit
    if ds.isEmpty then none else some (MyTickets.digitsToNat ds : Int)
  | r =>
    let ds := r.takeWhile Char.isDigit
    if ds.isEmpty then none else some (MyTickets.digitsToNat ds : Int)

/-- The function `formatTime(timeString)`. The remainder `%` takes the sign of the
dividend; `NaN` compares false and prints as "NaN". -/
def formatTime (timeString : Option String) : String :=
  match timeString with
  | none => "Not specified"
  | some t =>
    if t == "" then "Not specified"
    else
      match splitOn ':' t.toList with
      | [h, m] =>
        match parseInt10 h with
        | some hours =>
          let period := if 12 ≤ hours then "PM" else "AM"
          let formattedHours : Int := if hours.tmod 12 = 0 then 12 else hours.tmod 12
          toString formattedHours ++ ":" ++ String.mk m ++ " " ++ period
        | none => "NaN:" ++ String.mk m ++ " AM"
      | _ => t

/-- The text a template prints for a key of `event_data`. -/
def printKey (v : Option String) : String := v.getD "undefined"

/-- The text a template prints for a column of the row. -/
def printColumn (v : Option String) : String := v.getD "null"

/-- The line `[city, state, country].filter(Boolean).join(', ')`. -/
def cityLine (ed : EventData) : String :=
  ", ".intercalate (([ed.city, ed.state, ed.country].filter truthy).map (fun v => v.getD ""))

/-- The function `generateQRData()` for the current `ticket` cell. -/
def generateQRData (b : Builtins) (ticket : Option TicketRecord) : Except JsError String :=
  match ticket with
  | none => .ok ""
  | some t =>
    match t.event_data with
    | none => .error .typeError
    | some ed =>
      match t.status with
      | none => .error .typeError
      | some status =>
        match t.id with
        | none => .error .typeError
        | some i =>
          .ok ("EVENT: " ++ printKey ed.event_name ++
            "\nDESCRIPTION: " ++
              (match ed.description with
                | some d => d.take 100 ++ (if 100 < d.length then "..." else "")
                | none => "undefined") ++
            "\nDATE: " ++ formatDate b ed.event_start_date ++
            "\nTIME: " ++ formatTime ed.start_time ++ " - " ++ formatTime ed.end_time ++
            "\nLOCATION: " ++ orStr ed.address "Not specified" ++ ", " ++ cityLine ed ++
            "\nTICKET HOLDER: " ++ printColumn t.buyer_name ++
            "\nTICKET CODE: " ++ printColumn t.ticket_code ++
            "\nREFERENCE: " ++ printColumn t.reference ++
            "\nSTATUS: " ++ b.toUpperCase status ++
            "\nQUANTITY: " ++ (match t.quantity with
                | some q => toString q
                | none => "null") ++ " ticket(s)" ++
            "\nCONTACT EMAIL: " ++
              (if truthy t.customer_email then t.customer_email.getD ""
                else printColumn t.buyer_email) ++
            "\nVERIFICATION: " ++ b.toUpperCase (i.take 6))

/-- The cells of `TicketContent`. -/
structure ContentState where
  ticket : Option TicketRecord
  loading : Bool
  error : Option String
  deriving DecidableEq, Repr

/-- The state at first render. -/
def ContentState.initial : ContentState :=
  { ticket := none, loading := true, error := none }

/-- The outcome of awaiting `.single()`. -/
inductive SingleResult where
  | row (data : TicketRecord)
  | noData
  | error
  | thrown (message : Option String)
  deriving DecidableEq, Repr

/-- The effect run on mount: the guard on `ticketId` and `fetchTicket`, run to
completion. -/
def loadTicket (ticketId : Option String) (r : SingleResult) (s : ContentState) :
    ContentState :=
  if !truthy ticketId then { s with error := some "No ticket ID provided", loading := false }
  else
    match r with
    | .row data => { s with ticket := some data, loading := false }
    | .noData => { s with error := some "Ticket not found", loading := false }
    | .error =>
      { s with error := some "Ticket not found or has been removed", loading := false }
    | .thrown message =>
      { s with error := some (orStr message "An error occurred while fetching the ticket"),
               loading := false }

/-- The texts of the rendered ticket that come from the record. -/
structure TicketView where
  title : Option String
  kind : String
  coverImage : Option String
  dateText : String
  timeText : String
  addressLine : Option String
  cityText : String
  description : Option String
  buyerName : Option String
  contactEmail : Option String
  reference : Option String
  ticketCode : Option String
  statusText : String
  qrValue : String
  deriving DecidableEq, Repr

/-- What `TicketContent` returns. -/
inductive Screen where
  | loading
  | notFound (message : String)
  | unavailable
  | ticket (view : TicketView)
  deriving DecidableEq, Repr

/-- The JSX of `TicketContent` as a function of its cells. -/
def renderContent (b : Builtins) (s : ContentState) : Except JsError Screen :=
  if s.loading then .ok .loading
  else if truthy s.error then .ok (.notFound (s.error.getD ""))
  else
    match s.ticket with
    | none => .ok .unavailable
    | some t =>
      match t.event_data with
      | none => .error .typeError
      | some ed =>
        match t.status with
        | none => .error .typeError
        | some status =>
          match generateQRData b (some t) with
          | .error e => .error e
          | .ok qr =>
            .ok (.ticket
              { title := ed.event_name
                kind := if t.is_paid.getD false then "Paid Ticket" else "Free Ticket"
                coverImage := if truthy ed.cover_image_url then ed.cover_image_url else none
                dateText := formatDate b ed.event_start_date
                timeText := formatTime ed.start_time ++ " - " ++ formatTime ed.end_time
                addressLine := if truthy ed.address then ed.address else none
                cityText := cityLine ed
                description := if truthy ed.description then ed.description else none
                buyerName := t.buyer_name
                contactEmail := if truthy t.customer_email then t.customer_email
                  else t.buyer_email
                reference := t.reference
                ticketCode := t.ticket_code
                statusText := b.toUpperCase status
                qrValue := qr })

/-- Builtins for evaluation: dates printed as stored, upper case on `a` to `z`. -/
def plainBuiltins : Builtins :=
  { toLocaleDateString := fun d => d
    toUpperCase := fun s => String.mk (s.toList.map Char.toUpper) }

/-- A complete record. -/
def completeRecord : TicketRecord :=
  { id := some "7f3a9c21-5d4e", buyer_name := some "Ada Obi",
    customer_email := some "ada@x.com", ticket_code := some "PVT-0042",
    reference := some "ref-42", status := some "confirmed", quantity := some 2,
    is_paid := some false,
    event_data := some { event_name := some "Garden Party", start_time := some "18:30",
                         end_time := some "9:05", city := some "Lagos" } }

/-- The complete record with a null `event_data`. -/
def recordWithoutEventData : TicketRecord :=
  { completeRecord with event_data := none }

/-- The complete record with a null `status`. -/
def recordWithoutStatus : TicketRecord :=
  { completeRecord with status := none }

end PrivateTicket

/-!
The news lists: page buttons and post links

The function `getPageButtons` of `src/app/news/page.js`, the link `getPostUrl` builds (in
the list and, for related posts, in `src/app/news/[slug]/page.js`) and the slug the detail
page reads back from its route parameter. A string is a list of Unicode scalar values,
so it has no lone surrogate; `none` stands for a thrown `URIError`. The router is taken to
hand the path segment to the page as it stands in the link.
-/

namespace News

open MyTickets (truthy)

/-- An entry of the array `buttons`: a page number or the text "...". -/
inductive PageButton where
  | page (n : Int)
  | ellipsis
  deriving DecidableEq, Repr

/-- The entries pushed by `for (let i = a; i <= b; i++) buttons.push(i)`. -/
def pagesFromTo (a b : Int) : List PageButton :=
  (List.range (b + 1 - a).toNat).map (fun (k : Nat) => PageButton.page (a + (k : Int)))

/-- The constant `maxVisibleButtons`. -/
def maxVisibleButtons : Int := 5

/-- The function `getPageButtons()`, reading `totalPages` and `currentPage`. -/
def getPageButtons (totalPages currentPage : Int) : List PageButton :=
  if totalPages ≤ maxVisibleButtons then pagesFromTo 1 totalPages
  else
    let start0 := max 2 (currentPage - maxVisibleButtons / 2 + 1)
    let last := min (totalPages - 1) (start0 + maxVisibleButtons - 3)
    let start := if last = totalPages - 1 then max 2 (totalPages - maxVisibleButtons + 2)
      else start0
    [PageButton.page 1] ++ (if 2 < start then [PageButton.ellipsis] else []) ++
      pagesFromTo start last ++
      (if last < totalPages - 1 then [PageButton.ellipsis] else []) ++
      [PageButton.page totalPages]

/-- The characters `encodeURIComponent` leaves as they are: letters, digits and
`- _ . ! ~ * ( )` and the apostrophe. -/
def isUriUnreserved (c : Char) : Bool :=
  c.isAlphanum || c == '-' || c == '_' || c == '.' || c == '!' || c == '~' || c == '*' ||
  c == Char.ofNat 39 || c == '(' || c == ')'

/-- The UTF-8 octets of a scalar value. -/
def utf8Octets (c : Char) : List Nat :=
  let n := c.toNat
  if n < 0x80 then [n]
  else if n < 0x800 then [0xC0 + n / 64, 0x80 + n % 64]
  else if n < 0x10000 then [0xE0 + n / 4096, 0x80 + n / 64 % 64, 0x80 + n % 64]
  else [0xF0 + n / 262144, 0x80 + n / 4096 % 64, 0x80 + n / 64 % 64, 0x80 + n % 64]

/-- The upper-case hexadecimal digit of a value below 16. -/
def hexDigit (n : Nat) : Char :=
  if n < 10 then Char.ofNat (48 + n) else Char.ofNat (55 + n)

/-- The escape `%XX` of an octet. -/
def percentEscape (b : Nat) : List Char :=
  ['%', hexDigit (b / 16), hexDigit (b % 16)]

/-- The characters of `encodeURIComponent(s)`. -/
def encodeChars : List Char → List Char
  | [] => []
  | c :: cs =>
    (if isUriUnreserved c then [c] else (utf8Octets c).flatMap percentEscape) ++ encodeChars cs

/-- The global `encodeURIComponent(s)`. -/
def encodeURIComponent (s : String) : String := String.mk (encodeChars s.toList)

/-- The value of a hexadecimal digit of either case. -/
def hexValue (c : Char) : Option Nat :=
  if c.isDigit then some (c.toNat - 48)
  else if 'A'.toNat ≤ c.toNat ∧ c.toNat ≤ 'F'.toNat then some (c.toNat - 55)
  else if 'a'.toNat ≤ c.toNat ∧ c.toNat ≤ 'f'.toNat then some (c.toNat - 87)
  else none

/-- What the decoder reads: a character standing for itself or an escaped octet. -/
inductive UriToken where
  | lit (c : Char)
  | octet (b : Nat)
  deriving DecidableEq, Repr

/-- The first pass of the decoder: every `%` must be followed by two hexadecimal
digits. -/
def uriTokens : List Char → Option (List UriToken)
  | [] => some []
  | c :: rest =>
    if c = '%' then
      match rest with
      | h :: l :: rest2 =>
        match hexValue h, hexValue l with
        | some a, some b => (uriTokens rest2).map (fun ts => UriToken.octet (16 * a + b) :: ts)
        | _, _ => none
      | _ => none
    else (uriTokens rest).map (fun ts => UriToken.lit c :: ts)

/-- The payload of a continuation octet `10xxxxxx`. -/
def continuation (b : Nat) : Option Nat :=
  if 0x80 ≤ b ∧ b < 0xC0 then some (b - 0x80) else none

/-- The scalar value with number `n` when the octets read are its shortest encoding:
`lo` is the least number this many octets may encode. -/
def scalarOf (lo n : Nat) : Option Char :=
  if lo ≤ n ∧ (n < 0xD800 ∨ (0xDFFF < n ∧ n < 0x110000)) then some (Char.ofNat n) else none

/-- A sequence of several octets being read: the continuation octets still expected, the
bits read so far and the least number that many octets may encode. -/
structure Pending where
  need : Nat
  bits : Nat
  lo : Nat
  deriving DecidableEq, Repr

/-- The second pass of the decoder: escaped octets are read as UTF-8, one token at a
time. A leading octet opens a sequence, which only continuation octets may follow. -/
def decodeFrom : Option Pending → List UriToken → Option (List Char)
  | none, [] => some []
  | some _, [] => none
  | none, .lit c :: rest => (decodeFrom none rest).map (fun cs => c :: cs)
  | some _, .lit _ :: _ => none
  | none, .octet b :: rest =>
    if b < 0x80 then (decodeFrom none rest).map (fun cs => Char.ofNat b :: cs)
    else if 0xC0 ≤ b ∧ b < 0xE0 then decodeFrom (some ⟨1, b - 0xC0, 0x80⟩) rest
    else if 0xE0 ≤ b ∧ b < 0xF0 then decodeFrom (some ⟨2, b - 0xE0, 0x800⟩) rest
    else if 0xF0 ≤ b ∧ b < 0xF8 then decodeFrom (some ⟨3, b - 0xF0, 0x10000⟩) rest
    else none
  | some p, .octet b :: rest =>
    match continuation b with
    | none => none
    | some t =>
      if p.need ≤ 1 then
        match scalarOf p.lo (p.bits * 64 + t) with
        | some c => (decodeFrom none rest).map (fun cs => c :: cs)
        | none => none
      else decodeFrom (some ⟨p.need - 1, p.bits * 64 + t, p.lo⟩) rest

/-- The second pass from the start of the tokens. -/
def decodeTokens (ts : List UriToken) : Option (List Char) := decodeFrom none ts

/-- The tokens the decoder reads from the encoding of one character. -/
def encodedTokens (c : Char) : List UriToken :=
  if isUriUnreserved c then [UriToken.lit c] else (utf8Octets c).map UriToken.octet

/-- The global `decodeURIComponent(s)`; `none` is a thrown `URIError`. -/
def decodeURIComponent (s : String) : Option String :=
  ((uriTokens s.toList).bind decodeTokens).map String.mk

/-- The value `postSlug || postId`, a missing id printing as "undefined". -/
def linkPath (postSlug postId : Option String) : String :=
  if truthy postSlug then postSlug.getD "" else postId.getD "undefined"

/-- The function `getPostUrl(postSlug, postId)`. -/
def getPostUrl (postSlug postId : Option String) : String :=
  "/news/" ++ encodeURIComponent (linkPath postSlug postId)

/-- The parameter `slug` of the route `/news/[slug]` for a path: the one segment after
`/news/`. -/
def routeParam (path : String) : Option String :=
  if "/news/".toList.isPrefixOf path.toList ∧ ¬ '/' ∈ path.toList.drop 6 then
    some (String.mk (path.toList.drop 6))
  else none

/-- The value `slug` of `NewsPostDetail` for a path: `decodeURIComponent(params.slug)`. -/
def detailSlug (path : String) : Option String :=
  (routeParam path).bind decodeURIComponent

end News

/-!
The create-post form: submission

The handler `handleSubmit` of `src/app/admin/news/create/page.js`. The fresh identifier
and the clock reading are parameters, the database answers an insert with an
`InsertResult`, and the insert and the navigation are recorded as effects.
-/

namespace CreatePost

open MyTickets (orStr)

/-- The stored admin object, as far as the form reads it. -/
structure Admin where
  first_name : Option String := none
  last_name : Option String := none
  deriving DecidableEq, Repr

/-- The record `postData`. -/
structure PostData where
  id : String
  title : String
  slug : String
  excerpt : String
  content : String
  category : String
  status : String
  is_featured : Bool
  author : String
  image_url : Option String
  created_at : String
  deriving DecidableEq, Repr

/-- The outcome of awaiting `.insert([postData]).select()`. -/
inductive InsertResult where
  | rows (firstId : Option String)
  | noRows
  | error (message : Option String)
  | thrown (message : Option String)
  deriving DecidableEq, Repr

/-- Observable actions of `handleSubmit` besides state updates. -/
inductive SubmitEffect where
  | preventDefault
  | insert (table : String) (post : PostData)
  | routerPush (path : String)
  deriving DecidableEq, Repr

/-- Whether an effect is an insert. -/
def SubmitEffect.isInsert : SubmitEffect → Bool
  | .insert _ _ => true
  | _ => false

/-- The `useState` cells of `CreateNewsPost`; `imageFile` is whether a file is chosen. -/
structure FormState where
  loading : Bool
  admin : Option Admin
  error : Option String
  imageFile : Bool
  imagePreview : Option String
  formData : FormData
  deriving DecidableEq, Repr

/-- The record `postData` built by `handleSubmit`. -/
def buildPostData (toLowerCase : String → String) (uuid now : String) (s : FormState) :
    PostData :=
  { id := uuid
    title := s.formData.title
    slug := postSlug toLowerCase s.formData
    excerpt := s.formData.excerpt
    content := s.formData.content
    category := s.formData.category
    status := s.formData.status
    is_featured := s.formData.is_featured
    author := s.formData.author
    image_url := if s.imageFile then s.imagePreview else none
    created_at := now }

/-- The handler `handleSubmit(e)`, run to completion. -/
def handleSubmit (toLowerCase : String → String) (uuid now : String)
    (db : PostData → InsertResult) (s : FormState) : FormState × List SubmitEffect :=
  if s.admin.isNone then
    ({ s with error := some "You must be logged in as an admin to create a post" },
     [.preventDefault])
  else if s.formData.title == "" || s.formData.content == "" || s.formData.excerpt == "" then
    ({ s with error := some "Please fill in all required fields: title, excerpt, and content" },
     [.preventDefault])
  else if s.formData.author == "" then
    ({ s with error := some "Please provide an author name" }, [.preventDefault])
  else
    let postData := buildPostData toLowerCase uuid now s
    match db postData with
    | .error message =>
      ({ s with error := some (orStr message "Failed to create news post"),
                loading := false },
       [.preventDefault, .insert "news_posts" postData])
    | .noRows =>
      ({ s with error := some "Failed to create post: No data returned from database",
                loading := false },
       [.preventDefault, .insert "news_posts" postData])
    | .thrown message =>
      ({ s with error := some (orStr message "An unknown error occurred. Please try again."),
                loading := false },
       [.preventDefault, .insert "news_posts" postData])
    | .rows _ =>
      ({ s with error := none, loading := false },
       [.preventDefault, .insert "news_posts" postData, .routerPush "/admin/news"])

/-- A form filled in by a loaded admin. -/
def filledForm : FormState :=
  { loading := false, admin := some { first_name := some "Ada", last_name := some "Obi" },
    error := none, imageFile := false, imagePreview := none,
    formData := { title := "Hello, World 2024!", slug := "", excerpt := "A greeting",
                  content := "Welcome to the news.", category := "company",
                  status := "published", is_featured := true, author := "Ada Obi" } }

/-- The filled form with the excerpt emptied. -/
def formWithoutExcerpt : FormState :=
  { filledForm with formData := { filledForm.formData with excerpt := "" } }

/-- A database that stores every post. -/
def acceptingDb : PostData → InsertResult := fun post => .rows (some post.id)

end CreatePost

namespace MyTickets

/-! ## Basic facts -/

theorem fetchUserTickets_state (db : Backend) (s : State) (userEmail : String)
    (hne : userEmail ≠ "") :
    (fetchUserTickets db s userEmail).1 =
      { (freeStep (db.free_tickets userEmail) (paidStep (db.tickets userEmail)
          { s with error := none, allTickets := [], freeTickets := [], paidTickets := [],
                   loading := true, searched := true }).1).1 with loading := false } := by
  simp [fetchUserTickets, hne]

theorem fetchUserTickets_state_rows (db : Backend) (s : State) (userEmail : String)
    (paidRows freeRows : List Ticket) (hne : userEmail ≠ "")
    (hp : db.tickets userEmail = .rows paidRows)
    (hf : db.free_tickets userEmail = .rows freeRows) :
    (fetchUserTickets db s userEmail).1 =
      { s with error := none, allTickets := paidRows.map processPaidTicket ++ freeRows,
               freeTickets := freeRows, paidTickets := paidRows.map processPaidTicket,
               loading := false, searched := true } := by
  simp [fetchUserTickets, hne, hp, hf, paidStep, freeStep]

theorem paidStep_failed (r : QueryResult) (s : State) (h : r.failed = true) :
    (paidStep r s).1 = s := by
  cases r <;> simp_all [paidStep, QueryResult.failed]

theorem freeStep_failed (r : QueryResult) (s : State) (h : r.failed = true) :
    (freeStep r s).1 = s := by
  cases r <;> simp_all [freeStep, QueryResult.failed]

theorem render_sections_done (s : State) (hs : s.searched = true) (hl : s.loading = false) :
    ((render s).allSection.getD []) = s.allTickets.map allCard ∧
    ((render s).freeSection.getD []) = s.freeTickets.map freeCard ∧
    ((render s).paidSection.getD []) = s.paidTickets.map paidCard := by
  refine ⟨?_, ?_, ?_⟩
  · cases h : s.allTickets <;> simp [render, hs, hl, h]
  · cases h : s.freeTickets <;> simp [render, hs, hl, h]
  · cases h : s.paidTickets <;> simp [render, hs, hl, h]

theorem notOlder_processPaidTicket_left (a b : Ticket) :
    notOlder (processPaidTicket a) b ↔ notOlder a b := by
  simp [notOlder, processPaidTicket]

theorem notOlder_processPaidTicket_both (a b : Ticket) :
    notOlder (processPaidTicket a) (processPaidTicket b) ↔ notOlder a b := by
  simp [notOlder, processPaidTicket]

theorem orderedDesc_map_processPaidTicket (l : List Ticket) :
    orderedDesc (l.map processPaidTicket) ↔ orderedDesc l := by
  simp [orderedDesc, List.pairwise_map, notOlder_processPaidTicket_both]

theorem jsTrim_of_blank (e : String) (h : e.toList.all isJsWhitespace = true) :
    jsTrim e = "" := by
  have h1 : e.toList.dropWhile isJsWhitespace = [] := by
    rw [List.dropWhile_eq_nil_iff]
    intro c hc
    exact (List.all_eq_true.1 h) c hc
  unfold jsTrim
  rw [h1]
  rfl

theorem fetchUserTickets_paid_rows (db : Backend) (s : State) (userEmail : String)
    (paidRows : List Ticket) (hne : userEmail ≠ "")
    (hp : db.tickets userEmail = .rows paidRows) :
    (fetchUserTickets db s userEmail).1.searched = true ∧
    (fetchUserTickets db s userEmail).1.loading = false ∧
    (fetchUserTickets db s userEmail).1.paidTickets = paidRows.map processPaidTicket ∧
    ∃ rest, (fetchUserTickets db s userEmail).1.allTickets =
      paidRows.map processPaidTicket ++ rest := by
  rw [fetchUserTickets_state db s userEmail hne, hp]
  cases db.free_tickets userEmail with
  | rows data => exact ⟨rfl, rfl, rfl, data, rfl⟩
  | error e => exact ⟨rfl, rfl, rfl, [], by simp [paidStep, freeStep]⟩
  | nullData => exact ⟨rfl, rfl, rfl, [], by simp [paidStep, freeStep]⟩
  | thrown e => exact ⟨rfl, rfl, rfl, [], by simp [paidStep, freeStep]⟩

theorem truthy_event_title_processPaidTicket (t : Ticket) :
    truthy (processPaidTicket t).event_title = true := by
  simp only [processPaidTicket, truthy, orStr]
  split
  · split <;> simp_all
  · decide

theorem cardTitle_processPaidTicket_orphan (t : Ticket) (h : t.events = none) :
    cardTitle (processPaidTicket t) = "Unknown Event" := by
  simp [cardTitle, processPaidTicket, eventsField, h, orStr, truthy]

theorem dropWhile_nil_of_all_mem {α : Type} (p : α → Bool) (l : List α)
    (h : ∀ x ∈ l.dropWhile p, p x = true) : l.dropWhile p = [] := by
  induction l with
  | nil => rfl
  | cons a l ih =>
    by_cases ha : p a = true
    · rw [List.dropWhile_cons_of_pos ha] at h ⊢
      exact ih h
    · rw [List.dropWhile_cons_of_neg ha] at h
      exact absurd (h a (List.mem_cons_self a l)) ha

theorem jsTrim_ne_empty (e : String) (h : e.toList.all isJsWhitespace = false) :
    jsTrim e ≠ "" := by
  intro ht
  have h0 : ((e.toList.dropWhile isJsWhitespace).reverse.dropWhile isJsWhitespace).reverse
      = [] := by
    have := congrArg String.toList ht
    simpa [jsTrim] using this
  have h1 : (e.toList.dropWhile isJsWhitespace).reverse.dropWhile isJsWhitespace = [] := by
    simpa using h0
  have h2 : ∀ x ∈ e.toList.dropWhile isJsWhitespace, isJsWhitespace x = true := by
    intro x hx
    exact (List.dropWhile_eq_nil_iff.1 h1) x (List.mem_reverse.2 hx)
  have h3 := dropWhile_nil_of_all_mem isJsWhitespace e.toList h2
  have h4 : e.toList.all isJsWhitespace = true := by
    rw [List.all_eq_true]
    exact List.dropWhile_eq_nil_iff.1 h3
  rw [h4] at h
  cases h

theorem ne_empty_of_not_blank (e : String) (h : e.toList.all isJsWhitespace = false) :
    e ≠ "" := by
  intro he
  rw [he] at h
  cases h

/-! ## The combined list -/

/-- C1: for a non-empty email whose two queries both deliver rows, `allTickets` is the
enriched paid rows followed by the free rows; its length is the sum of the lengths of
`paidTickets` and `freeTickets`, every position of it holds the row of exactly one of
the two lists, and the three sections show as many cards as their lists have rows. -/
theorem fetchUserTickets_combined (db : Backend) (s : State) (userEmail : String)
    (paidRows freeRows : List Ticket) (hne : userEmail ≠ "")
    (hp : db.tickets userEmail = .rows paidRows)
    (hf : db.free_tickets userEmail = .rows freeRows) :
    (fetchUserTickets db s userEmail).1.paidTickets = paidRows.map processPaidTicket ∧
    (fetchUserTickets db s userEmail).1.freeTickets = freeRows ∧
    (fetchUserTickets db s userEmail).1.allTickets =
      paidRows.map processPaidTicket ++ freeRows ∧
    (fetchUserTickets db s userEmail).1.allTickets.length =
      (fetchUserTickets db s userEmail).1.paidTickets.length +
      (fetchUserTickets db s userEmail).1.freeTickets.length ∧
    (∀ i, i < (fetchUserTickets db s userEmail).1.allTickets.length →
      (i < (fetchUserTickets db s userEmail).1.paidTickets.length ∧
        (fetchUserTickets db s userEmail).1.allTickets[i]? =
          (fetchUserTickets db s userEmail).1.paidTickets[i]?) ∨
      ((fetchUserTickets db s userEmail).1.paidTickets.length ≤ i ∧
        (fetchUserTickets db s userEmail).1.allTickets[i]? =
          (fetchUserTickets db s userEmail).1.freeTickets[
            i - (fetchUserTickets db s userEmail).1.paidTickets.length]?)) ∧
    (∀ i, ¬ (i < (fetchUserTickets db s userEmail).1.paidTickets.length ∧
      (fetchUserTickets db s userEmail).1.paidTickets.length ≤ i)) ∧
    ((render (fetchUserTickets db s userEmail).1).allSection.getD []).length =
      paidRows.length + freeRows.length ∧
    ((render (fetchUserTickets db s userEmail).1).paidSection.getD []).length =
      paidRows.length ∧
    ((render (fetchUserTickets db s userEmail).1).freeSection.getD []).length =
      freeRows.length := by
  have hst := fetchUserTickets_state_rows db s userEmail paidRows freeRows hne hp hf
  have hr := render_sections_done (fetchUserTickets db s userEmail).1
    (by rw [hst]) (by rw [hst])
  rw [hr.1, hr.2.1, hr.2.2, hst]
  refine ⟨rfl, rfl, rfl, by simp, ?_, ?_, by simp, by simp, by simp⟩
  · intro i _
    by_cases h : i < paidRows.length
    · left
      exact ⟨by simpa using h, by simp [List.getElem?_append_left, h]⟩
    · right
      have h2 : paidRows.length ≤ i := Nat.le_of_not_lt h
      exact ⟨by simpa using h2, by simp [List.getElem?_append_right, h2]⟩
  · intro i hi
    exact Nat.lt_irrefl _ (Nat.lt_of_lt_of_le hi.1 hi.2)

/-- The rows of `a@x.com`: two paid rows and one free row give three combined cards, two
in the Paid section and one in the Free section. -/
theorem fetchUserTickets_combined_witness :
    ((render (fetchUserTickets sampleDb State.initial "a@x.com").1).allSection.getD []).length
      = 3 ∧
    ((render (fetchUserTickets sampleDb State.initial "a@x.com").1).paidSection.getD []).length
      = 2 ∧
    ((render (fetchUserTickets sampleDb State.initial "a@x.com").1).freeSection.getD []).length
      = 1 :=
  (fetchUserTickets_combined sampleDb State.initial "a@x.com"
    [samplePaid "p2" 300, samplePaid "p1" 100] [sampleFree "f1" 200]
    (by decide) rfl rfl).2.2.2.2.2.2

/-! ## Partial results -/

/-- C2: when the paid query fails and the free query delivers rows, `freeTickets` and
`allTickets` are the free rows, `paidTickets` is empty and the Free section renders them;
when the free query fails and the paid query delivers rows, `paidTickets` and `allTickets`
are the enriched paid rows, `freeTickets` is empty and the Paid section renders them. -/
theorem fetchUserTickets_one_source_down (db : Backend) (s : State) (userEmail : String)
    (hne : userEmail ≠ "") :
    (∀ freeRows, (db.tickets userEmail).failed = true →
      db.free_tickets userEmail = .rows freeRows →
      (fetchUserTickets db s userEmail).1.freeTickets = freeRows ∧
      (fetchUserTickets db s userEmail).1.allTickets = freeRows ∧
      (fetchUserTickets db s userEmail).1.paidTickets = [] ∧
      (render (fetchUserTickets db s userEmail).1).freeSection.getD [] =
        freeRows.map freeCard) ∧
    (∀ paidRows, db.tickets userEmail = .rows paidRows →
      (db.free_tickets userEmail).failed = true →
      (fetchUserTickets db s userEmail).1.paidTickets = paidRows.map processPaidTicket ∧
      (fetchUserTickets db s userEmail).1.allTickets = paidRows.map processPaidTicket ∧
      (fetchUserTickets db s userEmail).1.freeTickets = [] ∧
      (render (fetchUserTickets db s userEmail).1).paidSection.getD [] =
        (paidRows.map processPaidTicket).map paidCard) := by
  constructor
  · intro freeRows hp hf
    have hst : (fetchUserTickets db s userEmail).1 =
        { s with error := none, allTickets := freeRows, freeTickets := freeRows,
                 paidTickets := [], loading := false, searched := true } := by
      rw [fetchUserTickets_state db s userEmail hne, paidStep_failed _ _ hp, hf]
      simp [freeStep]
    have hr := render_sections_done (fetchUserTickets db s userEmail).1
      (by rw [hst]) (by rw [hst])
    rw [hr.2.1, hst]
    exact ⟨rfl, rfl, rfl, rfl⟩
  · intro paidRows hp hf
    have hst : (fetchUserTickets db s userEmail).1 =
        { s with error := none, allTickets := paidRows.map processPaidTicket,
                 freeTickets := [], paidTickets := paidRows.map processPaidTicket,
                 loading := false, searched := true } := by
      rw [fetchUserTickets_state db s userEmail hne, freeStep_failed _ _ hf, hp]
      simp [paidStep]
    have hr := render_sections_done (fetchUserTickets db s userEmail).1
      (by rw [hst]) (by rw [hst])
    rw [hr.2.2, hst]
    exact ⟨rfl, rfl, rfl, rfl⟩

/-- With the paid table down the one free row of `a@x.com` is still listed, and with the
free table down the two paid rows are. -/
theorem fetchUserTickets_one_source_down_witness :
    ((fetchUserTickets paidDownDb State.initial "a@x.com").1.freeTickets =
        [sampleFree "f1" 200] ∧
      (fetchUserTickets paidDownDb State.initial "a@x.com").1.allTickets =
        [sampleFree "f1" 200] ∧
      (fetchUserTickets paidDownDb State.initial "a@x.com").1.paidTickets = [] ∧
      (render (fetchUserTickets paidDownDb State.initial "a@x.com").1).freeSection.getD [] =
        [sampleFree "f1" 200].map freeCard) ∧
    ((fetchUserTickets freeDownDb State.initial "a@x.com").1.paidTickets =
        [samplePaid "p2" 300, samplePaid "p1" 100].map processPaidTicket ∧
      (fetchUserTickets freeDownDb State.initial "a@x.com").1.allTickets =
        [samplePaid "p2" 300, samplePaid "p1" 100].map processPaidTicket ∧
      (fetchUserTickets freeDownDb State.initial "a@x.com").1.freeTickets = [] ∧
      (render (fetchUserTickets freeDownDb State.initial "a@x.com").1).paidSection.getD [] =
        ([samplePaid "p2" 300, samplePaid "p1" 100].map processPaidTicket).map paidCard) :=
  ⟨(fetchUserTickets_one_source_down paidDownDb State.initial "a@x.com" (by decide)).1
      [sampleFree "f1" 200] rfl rfl,
   (fetchUserTickets_one_source_down freeDownDb State.initial "a@x.com" (by decide)).2
      [samplePaid "p2" 300, samplePaid "p1" 100] rfl rfl⟩

/-! ## Order of the combined list -/

/-- C3 fails as stated: the two paid rows (instants 300, 100) and the free row (instant
200) of `a@x.com` are each in descending purchase order, and the combined list, which
keeps the free row after both paid rows, is not. -/
theorem allTickets_not_descending :
    orderedDesc [samplePaid "p2" 300, samplePaid "p1" 100] ∧
    orderedDesc [sampleFree "f1" 200] ∧
    sampleDb.tickets "a@x.com" = .rows [samplePaid "p2" 300, samplePaid "p1" 100] ∧
    sampleDb.free_tickets "a@x.com" = .rows [sampleFree "f1" 200] ∧
    ¬ orderedDesc (fetchUserTickets sampleDb State.initial "a@x.com").1.allTickets := by
  refine ⟨by decide, by decide, rfl, rfl, ?_⟩
  rw [fetchUserTickets_state_rows sampleDb State.initial "a@x.com"
    [samplePaid "p2" 300, samplePaid "p1" 100] [sampleFree "f1" 200] (by decide) rfl rfl]
  decide

/-- C3 as amended: when both queries deliver rows in descending purchase order, the
combined list is the paid segment followed by the free segment, each segment is in
descending purchase order, and the whole list is in descending order exactly when no
free row is newer than a paid row. -/
theorem allTickets_descending_by_source (db : Backend) (s : State) (userEmail : String)
    (paidRows freeRows : List Ticket) (hne : userEmail ≠ "")
    (hp : db.tickets userEmail = .rows paidRows)
    (hf : db.free_tickets userEmail = .rows freeRows)
    (hpo : orderedDesc paidRows) (hfo : orderedDesc freeRows) :
    orderedDesc ((fetchUserTickets db s userEmail).1.allTickets.take paidRows.length) ∧
    orderedDesc ((fetchUserTickets db s userEmail).1.allTickets.drop paidRows.length) ∧
    (fetchUserTickets db s userEmail).1.allTickets.take paidRows.length =
      (fetchUserTickets db s userEmail).1.paidTickets ∧
    (fetchUserTickets db s userEmail).1.allTickets.drop paidRows.length =
      (fetchUserTickets db s userEmail).1.freeTickets ∧
    (orderedDesc (fetchUserTickets db s userEmail).1.allTickets ↔
      ∀ a ∈ paidRows, ∀ b ∈ freeRows, notOlder a b) := by
  have hst := fetchUserTickets_state_rows db s userEmail paidRows freeRows hne hp hf
  have hlen : (paidRows.map processPaidTicket).length = paidRows.length := by simp
  have htake : (paidRows.map processPaidTicket ++ freeRows).take paidRows.length =
      paidRows.map processPaidTicket := by
    rw [← hlen, List.take_left]
  have hdrop : (paidRows.map processPaidTicket ++ freeRows).drop paidRows.length =
      freeRows := by
    rw [← hlen, List.drop_left]
  rw [hst]
  refine ⟨?_, ?_, htake, hdrop, ?_⟩
  · show orderedDesc ((paidRows.map processPaidTicket ++ freeRows).take paidRows.length)
    rw [htake]
    exact (orderedDesc_map_processPaidTicket paidRows).2 hpo
  · show orderedDesc ((paidRows.map processPaidTicket ++ freeRows).drop paidRows.length)
    rw [hdrop]
    exact hfo
  · show orderedDesc (paidRows.map processPaidTicket ++ freeRows) ↔ _
    unfold orderedDesc
    rw [List.pairwise_append]
    constructor
    · intro h a ha b hb
      exact (notOlder_processPaidTicket_left a b).1
        (h.2.2 _ (List.mem_map_of_mem _ ha) _ hb)
    · intro h
      refine ⟨(orderedDesc_map_processPaidTicket paidRows).2 hpo, hfo, ?_⟩
      intro a ha b hb
      obtain ⟨a0, ha0, rfl⟩ := List.mem_map.1 ha
      exact (notOlder_processPaidTicket_left a0 b).2 (h a0 ha0 b hb)

/-- The rows of `a@x.com`: each segment of the combined list is in descending order. -/
theorem allTickets_descending_by_source_witness :
    orderedDesc ((fetchUserTickets sampleDb State.initial "a@x.com").1.allTickets.take 2) ∧
    orderedDesc ((fetchUserTickets sampleDb State.initial "a@x.com").1.allTickets.drop 2) :=
  have h := allTickets_descending_by_source sampleDb State.initial "a@x.com"
    [samplePaid "p2" 300, samplePaid "p1" 100] [sampleFree "f1" 200]
    (by decide) rfl rfl (by decide) (by decide)
  ⟨h.1, h.2.1⟩

/-! ## Prices -/

/-- C4 fails as stated: the stored price `"0"` parses to zero, which is not greater than
zero, and the Paid Tickets section still renders the currency badge for the row, with the
amount zero. -/
theorem paid_section_renders_zero_price :
    (parseFloat zeroPricedPaid.price_paid).isZero = true ∧
    (parseFloat zeroPricedPaid.price_paid).gtZero = false ∧
    zeroPriceDb.tickets "a@x.com" = .rows [zeroPricedPaid] ∧
    ((render (fetchUserTickets zeroPriceDb State.initial "a@x.com").1).paidSection.getD []).map
      Card.price = [some JsNum.zero] := by
  decide

/-- C4 as amended: in the All Tickets section a currency amount is rendered for a row
exactly when `parseFloat(price_paid) > 0`; the Free Tickets section renders no currency
amount; the Paid Tickets section renders the currency badge for every row, showing
`parseFloat(price_paid || 0)`, which is zero when the stored price parses to zero. -/
theorem price_rendered_by_section (s : State) :
    (∀ cards, (render s).allSection = some cards →
      List.Forall₂ (fun t c => (c.price.isSome = true ↔
        (parseFloat t.price_paid).gtZero = true)) s.allTickets cards) ∧
    (∀ cards, (render s).freeSection = some cards → ∀ c ∈ cards, c.price = none) ∧
    (∀ cards, (render s).paidSection = some cards →
      List.Forall₂ (fun t c => c.price = some (parseFloat t.price_paid.orZero) ∧
        ((parseFloat t.price_paid).isZero = true →
          ∃ n, c.price = some n ∧ n.isZero = true)) s.paidTickets cards) := by
  refine ⟨?_, ?_, ?_⟩
  · intro cards h
    simp only [render] at h
    split at h
    · cases h
      rw [List.forall₂_map_right_iff, List.forall₂_same]
      intro t _
      by_cases hg : (parseFloat t.price_paid).gtZero = true <;> simp [allCard, hg]
    · cases h
  · intro cards h c hc
    simp only [render] at h
    split at h
    · cases h
      obtain ⟨t, _, rfl⟩ := List.mem_map.1 hc
      rfl
    · cases h
  · intro cards h
    simp only [render] at h
    split at h
    · cases h
      rw [List.forall₂_map_right_iff, List.forall₂_same]
      intro t _
      refine ⟨rfl, fun hz => ⟨_, rfl, ?_⟩⟩
      unfold JsVal.orZero
      split
      · exact hz
      · simp [parseFloat, JsNum.zero, JsNum.isZero, JsNum.nonzeroMag]
    · cases h

/-- The screen of `a@x.com`: the amounts of the All Tickets cards follow the sign of the
parsed price. -/
theorem price_rendered_by_section_witness :
    List.Forall₂ (fun t c => (c.price.isSome = true ↔
        (parseFloat t.price_paid).gtZero = true))
      (fetchUserTickets sampleDb State.initial "a@x.com").1.allTickets
      ((fetchUserTickets sampleDb State.initial "a@x.com").1.allTickets.map allCard) :=
  (price_rendered_by_section (fetchUserTickets sampleDb State.initial "a@x.com").1).1 _
    (by decide)

/-! ## Repeated searches -/

/-- C5: for a non-empty email the three ticket lists, the error message and the two flags
left by `fetchUserTickets` depend on the two query outcomes only, whatever the prior state
held; and running the fetch again on its own result, with the same outcomes, changes
nothing. -/
theorem fetchUserTickets_forgets_prior (db db2 : Backend) (s s2 : State)
    (e e2 : String) (hne : e ≠ "") (hne2 : e2 ≠ "")
    (hp : db.tickets e = db2.tickets e2)
    (hf : db.free_tickets e = db2.free_tickets e2) :
    (fetchUserTickets db s e).1.allTickets = (fetchUserTickets db2 s2 e2).1.allTickets ∧
    (fetchUserTickets db s e).1.paidTickets = (fetchUserTickets db2 s2 e2).1.paidTickets ∧
    (fetchUserTickets db s e).1.freeTickets = (fetchUserTickets db2 s2 e2).1.freeTickets ∧
    (fetchUserTickets db s e).1.error = (fetchUserTickets db2 s2 e2).1.error ∧
    (fetchUserTickets db s e).1.loading = (fetchUserTickets db2 s2 e2).1.loading ∧
    (fetchUserTickets db s e).1.searched = (fetchUserTickets db2 s2 e2).1.searched ∧
    fetchUserTickets db (fetchUserTickets db s e).1 e = fetchUserTickets db s e := by
  have h1 : ∀ (d : Backend) (t : State) (x : String), x ≠ "" →
      (fetchUserTickets d t x).1.allTickets =
        (match d.tickets x with
          | .rows p => p.map processPaidTicket
          | _ => []) ++
        (match d.free_tickets x with
          | .rows f => f
          | _ => []) ∧
      (fetchUserTickets d t x).1.paidTickets =
        (match d.tickets x with
          | .rows p => p.map processPaidTicket
          | _ => []) ∧
      (fetchUserTickets d t x).1.freeTickets =
        (match d.free_tickets x with
          | .rows f => f
          | _ => []) ∧
      (fetchUserTickets d t x).1.error = none ∧
      (fetchUserTickets d t x).1.loading = false ∧
      (fetchUserTickets d t x).1.searched = true := by
    intro d t x hx
    rw [fetchUserTickets_state d t x hx]
    cases d.tickets x <;> cases d.free_tickets x <;> simp [paidStep, freeStep]
  have a := h1 db s e hne
  have b := h1 db2 s2 e2 hne2
  rw [hp, hf] at a
  refine ⟨a.1.trans b.1.symm, a.2.1.trans b.2.1.symm, a.2.2.1.trans b.2.2.1.symm,
    a.2.2.2.1.trans b.2.2.2.1.symm, a.2.2.2.2.1.trans b.2.2.2.2.1.symm,
    a.2.2.2.2.2.trans b.2.2.2.2.2.symm, ?_⟩
  simp only [fetchUserTickets, hne, if_false]
  cases db.tickets e <;> cases db.free_tickets e <;> simp [paidStep, freeStep]

/-- A search for `a@x.com` started from the stale screen and one started from the first
render leave the same lists, and a second run changes nothing. -/
theorem fetchUserTickets_forgets_prior_witness :
    (fetchUserTickets sampleDb staleBlankState "a@x.com").1.allTickets =
      (fetchUserTickets sampleDb State.initial "a@x.com").1.allTickets ∧
    fetchUserTickets sampleDb (fetchUserTickets sampleDb staleBlankState "a@x.com").1
      "a@x.com" = fetchUserTickets sampleDb staleBlankState "a@x.com" :=
  have h := fetchUserTickets_forgets_prior sampleDb sampleDb staleBlankState State.initial
    "a@x.com" "a@x.com" (by decide) (by decide) rfl rfl
  ⟨h.1, h.2.2.2.2.2.2⟩

/-! ## Missing input -/

/-- C6: when the email cell is empty or holds only white space, `handleSearch` issues no
query, leaves the three ticket lists and the searched flag as they were and sets the
error message "Please enter an email address to search"; `fetchUserTickets` itself
returns at once on an empty email, issuing nothing. -/
theorem handleSearch_blank_email (db : Backend) (s : State)
    (hblank : s.email.toList.all isJsWhitespace = true) :
    (∀ eff ∈ (handleSearch db s).2, eff.isQuery = false) ∧
    (handleSearch db s).1.allTickets = s.allTickets ∧
    (handleSearch db s).1.paidTickets = s.paidTickets ∧
    (handleSearch db s).1.freeTickets = s.freeTickets ∧
    (handleSearch db s).1.searched = s.searched ∧
    (handleSearch db s).1.error = some "Please enter an email address to search" ∧
    fetchUserTickets db s "" = (s, []) := by
  have ht := jsTrim_of_blank s.email hblank
  simp [handleSearch, ht, fetchUserTickets, Effect.isQuery]

/-- The stale screen with a blank form: the search is refused and the earlier rows stay. -/
theorem handleSearch_blank_email_witness :
    (∀ eff ∈ (handleSearch sampleDb staleBlankState).2, eff.isQuery = false) ∧
    (handleSearch sampleDb staleBlankState).1.allTickets = [sampleFree "f1" 200] ∧
    (handleSearch sampleDb staleBlankState).1.error =
      some "Please enter an email address to search" :=
  have h := handleSearch_blank_email sampleDb staleBlankState (by decide)
  ⟨h.1, h.2.1, h.2.2.2.2.2.1⟩

/-! ## Card titles -/

/-- C7 fails as stated: the paid row whose event join is empty is shown, in the Paid
Tickets and in the All Tickets section, under the title "Unknown Event", not under the
placeholder built from its event identifier. -/
theorem orphan_paid_title_not_placeholder :
    orphanDb.tickets "a@x.com" = .rows [orphanPaid] ∧
    orphanPaid.events = none ∧
    ((render (fetchUserTickets orphanDb State.initial "a@x.com").1).paidSection.getD []).map
      Card.title = ["Unknown Event"] ∧
    ((render (fetchUserTickets orphanDb State.initial "a@x.com").1).allSection.getD []).map
      Card.title = ["Unknown Event"] ∧
    "Unknown Event" ≠ "Event ID: " ++ substring0 "0a1b2c3d-4e5f-6789" 8 ++ "..." := by
  decide

/-- C7 as amended: a paid row whose joined event record is missing is shown, in the Paid
Tickets and in the All Tickets section, under the title "Unknown Event", the default the
enrichment stores in `event_title`; the placeholder "Event ID: " followed by the first 8
characters of `event_id` and "..." is the title of a card only when the row has an empty
or missing `event_title`, which no enriched paid row has. -/
theorem orphan_paid_title (db : Backend) (s : State) (userEmail : String)
    (paidRows : List Ticket) (hne : userEmail ≠ "")
    (hp : db.tickets userEmail = .rows paidRows) :
    (∀ (i : Nat) (t : Ticket), paidRows[i]? = some t → t.events = none →
      ((render (fetchUserTickets db s userEmail).1).paidSection.getD [])[i]?.map Card.title =
        some "Unknown Event" ∧
      ((render (fetchUserTickets db s userEmail).1).allSection.getD [])[i]?.map Card.title =
        some "Unknown Event") ∧
    (∀ t, truthy (processPaidTicket t).event_title = true) ∧
    (∀ t, truthy t.event_title = true → cardTitle t = t.event_title.getD "") ∧
    (∀ (t : Ticket) (i : String), truthy t.event_title = false → t.event_id = some i →
      cardTitle t = "Event ID: " ++ substring0 i 8 ++ "...") := by
  refine ⟨?_, truthy_event_title_processPaidTicket, ?_, ?_⟩
  · intro i t hi hev
    obtain ⟨hs, hl, hpaid, rest, hall⟩ := fetchUserTickets_paid_rows db s userEmail paidRows hne hp
    have hr := render_sections_done (fetchUserTickets db s userEmail).1 hs hl
    have hlt : i < paidRows.length := by
      rcases Nat.lt_or_ge i paidRows.length with h | h
      · exact h
      · rw [List.getElem?_eq_none h] at hi
        cases hi
    rw [hr.1, hr.2.2, hpaid, hall]
    have hc := cardTitle_processPaidTicket_orphan t hev
    constructor
    · simp [List.getElem?_map, hi, paidCard, hc]
    · rw [List.map_append, List.getElem?_append_left (by simpa using hlt)]
      simp [List.getElem?_map, hi, allCard, hc]
  · intro t ht
    simp [cardTitle, ht]
  · intro t i ht hid
    simp [cardTitle, ht, hid]

/-- The orphan row: its Paid Tickets card is titled "Unknown Event". -/
theorem orphan_paid_title_witness :
    ((render (fetchUserTickets orphanDb State.initial "a@x.com").1).paidSection.getD [])[0]?.map
      Card.title = some "Unknown Event" :=
  ((orphan_paid_title orphanDb State.initial "a@x.com" [orphanPaid] (by decide) rfl).1
    0 orphanPaid rfl rfl).1

/-! ## Query errors -/

/-- C8 fails as stated: the paid query answers with an error, and when the fetch
completes the error cell is null and no error banner is rendered. -/
theorem query_error_sets_no_message :
    paidDownDb.tickets "a@x.com" = .error (.remote "relation tickets is unavailable") ∧
    (fetchUserTickets paidDownDb State.initial "a@x.com").1.error = none ∧
    (render (fetchUserTickets paidDownDb State.initial "a@x.com").1).errorBanner = none := by
  decide

/-- C8 as amended: for a non-empty email, an error returned by a ticket query is logged
with `console.error` under the label of its table and is not turned into a message for the
user: whatever the two queries answer, the error cell is null when the fetch completes
and no error banner is rendered. -/
theorem query_error_logged_only (db : Backend) (s : State) (userEmail : String)
    (hne : userEmail ≠ "") :
    (fetchUserTickets db s userEmail).1.error = none ∧
    (render (fetchUserTickets db s userEmail).1).errorBanner = none ∧
    (∀ err, db.tickets userEmail = .error err →
      Effect.consoleError "Error fetching paid tickets:" err ∈
        (fetchUserTickets db s userEmail).2) ∧
    (∀ err, db.free_tickets userEmail = .error err →
      Effect.consoleError "Error fetching free tickets:" err ∈
        (fetchUserTickets db s userEmail).2) := by
  have herr : (fetchUserTickets db s userEmail).1.error = none := by
    rw [fetchUserTickets_state db s userEmail hne]
    cases db.tickets userEmail <;> cases db.free_tickets userEmail <;>
      simp [paidStep, freeStep]
  refine ⟨herr, ?_, ?_, ?_⟩
  · simp [render, herr, truthy]
  · intro err h
    simp [fetchUserTickets, hne, h, paidStep]
  · intro err h
    simp [fetchUserTickets, hne, h, freeStep]

/-- The paid table down: the failure is in the console log and the error cell is null. -/
theorem query_error_logged_only_witness :
    (fetchUserTickets paidDownDb State.initial "a@x.com").1.error = none ∧
    Effect.consoleError "Error fetching paid tickets:"
        (.remote "relation tickets is unavailable") ∈
      (fetchUserTickets paidDownDb State.initial "a@x.com").2 :=
  have h := query_error_logged_only paidDownDb State.initial "a@x.com" (by decide)
  ⟨h.1, h.2.2.1 _ rfl⟩

/-! ## The empty result -/

/-- C9: the "No tickets found" panel is rendered exactly when a search has been attempted,
loading has finished and the three ticket lists are empty; the first render does not show
it; and after a search for a non-empty email with no row in either table it is shown,
with the spinner off, no error message and no card section. -/
theorem noTicketsPanel_after_empty_search (db : Backend) (s : State) (userEmail : String)
    (hne : userEmail ≠ "")
    (hp : db.tickets userEmail = .rows [])
    (hf : db.free_tickets userEmail = .rows []) :
    (∀ t : State, (render t).noTicketsPanel = true ↔
      (t.searched = true ∧ t.loading = false ∧ t.allTickets = [] ∧ t.paidTickets = [] ∧
        t.freeTickets = [])) ∧
    (render State.initial).noTicketsPanel = false ∧
    (render (fetchUserTickets db s userEmail).1).noTicketsPanel = true ∧
    (render (fetchUserTickets db s userEmail).1).spinner = false ∧
    (fetchUserTickets db s userEmail).1.loading = false ∧
    (fetchUserTickets db s userEmail).1.error = none ∧
    (render (fetchUserTickets db s userEmail).1).errorBanner = none ∧
    (render (fetchUserTickets db s userEmail).1).allSection = none ∧
    (render (fetchUserTickets db s userEmail).1).paidSection = none ∧
    (render (fetchUserTickets db s userEmail).1).freeSection = none := by
  have hst := fetchUserTickets_state_rows db s userEmail [] [] hne hp hf
  rw [hst]
  refine ⟨?_, by decide, ?_⟩
  · intro t
    simp [render, List.length_eq_zero, and_assoc]
  · simp [render, truthy]

/-- The address `nobody@x.com` has no row in either table, and after the search
the panel is shown, not the spinner and not an error. -/
theorem noTicketsPanel_after_empty_search_witness :
    (render State.initial).noTicketsPanel = false ∧
    (render (fetchUserTickets sampleDb State.initial "nobody@x.com").1).noTicketsPanel = true ∧
    (render (fetchUserTickets sampleDb State.initial "nobody@x.com").1).spinner = false ∧
    (render (fetchUserTickets sampleDb State.initial "nobody@x.com").1).errorBanner = none :=
  have h := noTicketsPanel_after_empty_search sampleDb State.initial "nobody@x.com"
    (by decide) (by decide) (by decide)
  ⟨h.2.1, h.2.2.1, h.2.2.2.1, h.2.2.2.2.2.2.1⟩

/-! ## Paid rows only -/

/-- C10: when both queries succeed and the free query delivers no row, `allTickets` equals
`paidTickets`, both being the enriched paid rows, and `freeTickets` is empty. -/
theorem fetchUserTickets_paid_only (db : Backend) (s : State) (userEmail : String)
    (paidRows : List Ticket) (hne : userEmail ≠ "")
    (hp : db.tickets userEmail = .rows paidRows)
    (hf : db.free_tickets userEmail = .rows []) :
    (fetchUserTickets db s userEmail).1.allTickets =
      (fetchUserTickets db s userEmail).1.paidTickets ∧
    (fetchUserTickets db s userEmail).1.paidTickets = paidRows.map processPaidTicket ∧
    (fetchUserTickets db s userEmail).1.freeTickets = [] := by
  rw [fetchUserTickets_state_rows db s userEmail paidRows [] hne hp hf]
  simp

/-- The orphan backend has paid rows only: the combined list is the paid list. -/
theorem fetchUserTickets_paid_only_witness :
    (fetchUserTickets orphanDb State.initial "a@x.com").1.allTickets =
      (fetchUserTickets orphanDb State.initial "a@x.com").1.paidTickets ∧
    (fetchUserTickets orphanDb State.initial "a@x.com").1.paidTickets =
      [orphanPaid].map processPaidTicket ∧
    (fetchUserTickets orphanDb State.initial "a@x.com").1.freeTickets = [] :=
  fetchUserTickets_paid_only orphanDb State.initial "a@x.com" [orphanPaid]
    (by decide) rfl rfl

/-! ## Enrichment of paid rows -/

/-- C11 fails as stated: the joined event record of this paid row has no name, and the
enrichment stores "Unknown Event" in `event_title`, not the (missing) event name. -/
theorem nameless_event_title_defaulted :
    namelessEventPaid.events.isSome = true ∧
    eventsField namelessEventPaid Event.name = none ∧
    (processPaidTicket namelessEventPaid).event_title = some "Unknown Event" ∧
    (processPaidTicket namelessEventPaid).event_title ≠
      eventsField namelessEventPaid Event.name := by
  decide

/-- C11 as amended: for a paid row with a joined event record, the enrichment sets
`event_title` to the event name when that is a non-empty string and to "Unknown Event"
otherwise, `event_date` and `event_time` to the event date and start time when these are
non-empty and to null otherwise, and `event_location` to the address, ", ", the city (empty
when missing) and ", state" when a state is present if the address is present, and
otherwise to the city (empty when missing) and ", state" when a state is present; every
other field of the row is kept. -/
theorem processPaidTicket_joined (t : Ticket) (ev : Event) (h : t.events = some ev) :
    (∀ n, ev.name = some n → n ≠ "" → (processPaidTicket t).event_title = some n) ∧
    (truthy ev.name = false → (processPaidTicket t).event_title = some "Unknown Event") ∧
    (∀ d, ev.event_date = some d → d ≠ "" → (processPaidTicket t).event_date = some d) ∧
    (truthy ev.event_date = false → (processPaidTicket t).event_date = none) ∧
    (∀ d, ev.start_time = some d → d ≠ "" → (processPaidTicket t).event_time = some d) ∧
    (truthy ev.start_time = false → (processPaidTicket t).event_time = none) ∧
    (∀ a, ev.address = some a → a ≠ "" →
      (processPaidTicket t).event_location =
        some (a ++ ", " ++ ev.city.getD "" ++
          (if truthy ev.state then ", " ++ ev.state.getD "" else ""))) ∧
    (truthy ev.address = false →
      (processPaidTicket t).event_location =
        some (ev.city.getD "" ++
          (if truthy ev.state then ", " ++ ev.state.getD "" else ""))) ∧
    ((processPaidTicket t).id = t.id ∧
      (processPaidTicket t).event_id = t.event_id ∧
      (processPaidTicket t).ticket_tier_id = t.ticket_tier_id ∧
      (processPaidTicket t).user_id = t.user_id ∧
      (processPaidTicket t).customer_email = t.customer_email ∧
      (processPaidTicket t).customer_name = t.customer_name ∧
      (processPaidTicket t).customer_phone = t.customer_phone ∧
      (processPaidTicket t).price_paid = t.price_paid ∧
      (processPaidTicket t).ticket_code = t.ticket_code ∧
      (processPaidTicket t).ticket_type = t.ticket_type ∧
      (processPaidTicket t).reference = t.reference ∧
      (processPaidTicket t).transaction_id = t.transaction_id ∧
      (processPaidTicket t).status = t.status ∧
      (processPaidTicket t).is_used = t.is_used ∧
      (processPaidTicket t).checked_in_at = t.checked_in_at ∧
      (processPaidTicket t).checked_in_by = t.checked_in_by ∧
      (processPaidTicket t).purchase_date = t.purchase_date ∧
      (processPaidTicket t).created_at = t.created_at ∧
      (processPaidTicket t).updated_at = t.updated_at ∧
      (processPaidTicket t).events = t.events) := by
  have hcity : orStr ev.city "" = ev.city.getD "" := by
    cases hc : ev.city with
    | none => rfl
    | some c =>
      by_cases hce : c = ""
      · simp [orStr, hce]
      · simp [orStr, hce]
  refine ⟨?_, ?_, ?_, ?_, ?_, ?_, ?_, ?_, ?_⟩
  · intro n hn hne
    simp [processPaidTicket, eventsField, h, hn, orStr, hne]
  · intro hn
    cases hname : ev.name with
    | none => simp [processPaidTicket, eventsField, h, hname, orStr]
    | some n =>
      have : n = "" := by simpa [truthy, hname] using hn
      simp [processPaidTicket, eventsField, h, hname, orStr, this]
  · intro d hd hne
    simp [processPaidTicket, eventsField, h, hd, orNull, truthy, hne]
  · intro hd
    simp [processPaidTicket, eventsField, h, orNull, hd]
  · intro d hd hne
    simp [processPaidTicket, eventsField, h, hd, orNull, truthy, hne]
  · intro hd
    simp [processPaidTicket, eventsField, h, orNull, hd]
  · intro a ha hne
    simp [processPaidTicket, eventLocation, eventsField, h, ha, truthy, hne, hcity]
  · intro ha
    simp [processPaidTicket, eventLocation, eventsField, h, ha, hcity]
  · exact ⟨rfl, rfl, rfl, rfl, rfl, rfl, rfl, rfl, rfl, rfl, rfl, rfl, rfl, rfl, rfl, rfl,
      rfl, rfl, rfl, rfl⟩

/-- The complete event record: title, date, time and the full location are filled in. -/
theorem processPaidTicket_joined_witness :
    (processPaidTicket fullEventPaid).event_title = some "Lagos Jazz Night" ∧
    (processPaidTicket fullEventPaid).event_date = some "2025-03-01" ∧
    (processPaidTicket fullEventPaid).event_time = some "18:00" ∧
    (processPaidTicket fullEventPaid).event_location =
      some "12 Marina Road, Lagos, LA" :=
  have h := processPaidTicket_joined fullEventPaid
    { name := some "Lagos Jazz Night", event_date := some "2025-03-01",
      start_time := some "18:00", city := some "Lagos", state := some "LA",
      address := some "12 Marina Road" } rfl
  ⟨h.1 _ rfl (by decide), h.2.2.1 _ rfl (by decide), h.2.2.2.2.1 _ rfl (by decide),
    h.2.2.2.2.2.2.1 _ rfl (by decide)⟩

/-! ## The email filter -/

/-- C12: for an input that is not blank, `handleSearch` issues exactly two queries, the
paid one and then the free one, and the `customer_email` filter of both is the input
itself, neither trimmed nor changed in case. -/
theorem handleSearch_email_verbatim (db : Backend) (s : State)
    (h : s.email.toList.all isJsWhitespace = false) :
    (handleSearch db s).2.filter Effect.isQuery =
      [.query "tickets" s.email, .query "free_tickets" s.email] := by
  have ht := jsTrim_ne_empty s.email h
  have hne := ne_empty_of_not_blank s.email h
  simp only [handleSearch, ht, if_false, fetchUserTickets, hne]
  cases db.tickets s.email <;> cases db.free_tickets s.email <;>
    simp [paidStep, freeStep, List.filter, Effect.isQuery]

/-- The address typed as "  Ada@X.com " reaches both tables with its blanks and capitals. -/
theorem handleSearch_email_verbatim_witness :
    (handleSearch sampleDb paddedEmailState).2.filter Effect.isQuery =
      [.query "tickets" "  Ada@X.com ", .query "free_tickets" "  Ada@X.com "] :=
  handleSearch_email_verbatim sampleDb paddedEmailState (by decide)

/-! ## No uncaught failure -/

/-- C13: for a non-empty email and every outcome of the two queries (rows, an error
result, a null payload, a rejection), `fetchUserTickets` with its exceptions made explicit
completes normally, with the state and effects of `fetchUserTickets`, and leaves `loading`
false and `searched` true. -/
theorem fetchUserTickets_completes (db : Backend) (s : State) (userEmail : String)
    (hne : userEmail ≠ "") :
    fetchUserTicketsExc db s userEmail = .ok (fetchUserTickets db s userEmail) ∧
    (fetchUserTickets db s userEmail).1.loading = false ∧
    (fetchUserTickets db s userEmail).1.searched = true := by
  refine ⟨?_, ?_, ?_⟩
  · simp only [fetchUserTicketsExc, fetchBody, fetchUserTickets, hne, if_false]
    cases db.tickets userEmail <;> cases db.free_tickets userEmail <;>
      simp [paidTry, freeTry, catchLog, paidStep, freeStep]
  · rw [fetchUserTickets_state db s userEmail hne]
  · rw [fetchUserTickets_state db s userEmail hne]
    cases db.tickets userEmail <;> cases db.free_tickets userEmail <;>
      simp [paidStep, freeStep]

/-- A null payload from the paid table and a rejected free query: the fetch still
completes, with the spinner off and the search recorded. -/
theorem fetchUserTickets_completes_witness :
    fetchUserTicketsExc brokenDb State.initial "a@x.com" =
      .ok (fetchUserTickets brokenDb State.initial "a@x.com") ∧
    (fetchUserTickets brokenDb State.initial "a@x.com").1.loading = false ∧
    (fetchUserTickets brokenDb State.initial "a@x.com").1.searched = true :=
  fetchUserTickets_completes brokenDb State.initial "a@x.com" (by decide)

end MyTickets

namespace PrivateTicket

/-! ## The viewer on an incomplete record -/

/-- C14, evaluated on the code: a fetched record whose `event_data` is null is stored in
the `ticket` cell with no error, and both the rendering of the ticket and
`generateQRData` then fail with an uncaught `TypeError`; the same happens for a record
whose `status` is null, while the complete record renders. -/
theorem viewer_fails_on_incomplete_record (b : Builtins) :
    loadTicket (some "7f3a9c21-5d4e") (.row recordWithoutEventData) ContentState.initial =
      { ticket := some recordWithoutEventData, loading := false, error := none } ∧
    renderContent b (loadTicket (some "7f3a9c21-5d4e") (.row recordWithoutEventData)
      ContentState.initial) = .error .typeError ∧
    generateQRData b (some recordWithoutEventData) = .error .typeError ∧
    renderContent b (loadTicket (some "7f3a9c21-5d4e") (.row recordWithoutStatus)
      ContentState.initial) = .error .typeError ∧
    generateQRData b (some recordWithoutStatus) = .error .typeError ∧
    (∃ view, renderContent b (loadTicket (some "7f3a9c21-5d4e") (.row completeRecord)
      ContentState.initial) = .ok (.ticket view)) := by
  refine ⟨rfl, rfl, rfl, rfl, rfl, ?_⟩
  exact ⟨_, rfl⟩

end PrivateTicket

namespace CreatePost

open MyTickets (isJsWhitespace jsTrim)

/-! ## The generated slug -/

theorem mem_replaceRuns (p : Char → Bool) (r : Char) (l : List Char) (inRun : Bool)
    (c : Char) (h : c ∈ replaceRuns p r inRun l) : c = r ∨ (c ∈ l ∧ p c = false) := by
  induction l generalizing inRun with
  | nil => simp [replaceRuns] at h
  | cons a l ih =>
    simp only [replaceRuns] at h
    by_cases hp : p a = true
    · simp only [hp, if_true] at h
      cases inRun with
      | true =>
        simp only [if_true] at h
        rcases ih true h with h1 | h1
        · exact Or.inl h1
        · exact Or.inr ⟨List.mem_cons_of_mem _ h1.1, h1.2⟩
      | false =>
        simp only [Bool.false_eq_true, if_false, List.mem_cons] at h
        rcases h with h | h
        · exact Or.inl h
        · rcases ih true h with h1 | h1
          · exact Or.inl h1
          · exact Or.inr ⟨List.mem_cons_of_mem _ h1.1, h1.2⟩
    · have hpf : p a = false := by simpa using hp
      simp only [hpf, Bool.false_eq_true, if_false, List.mem_cons] at h
      rcases h with h0 | h
      · rw [h0]
        exact Or.inr ⟨List.mem_cons_self _ _, hpf⟩
      · rcases ih false h with h1 | h1
        · exact Or.inl h1
        · exact Or.inr ⟨List.mem_cons_of_mem _ h1.1, h1.2⟩

theorem mem_jsTrim (l : List Char) (c : Char) (h : c ∈ (jsTrim (String.mk l)).toList) :
    c ∈ l := by
  have h1 : c ∈ ((l.dropWhile isJsWhitespace).reverse.dropWhile isJsWhitespace).reverse := by
    simpa [jsTrim] using h
  have h2 := List.dropWhile_subset isJsWhitespace (List.mem_reverse.1 h1)
  exact List.dropWhile_subset isJsWhitespace (List.mem_reverse.1 h2)

/-- C15: for every title and whatever the case mapping does, the slug generated by
`handleChange` when the title changes, which is also the slug `handleSubmit` stores when
the slug field is empty, consists only of the letters `a` to `z`, decimal digits and
hyphens. -/
theorem slug_is_url_friendly (toLowerCase : String → String) (title : String)
    (prev : FormData) :
    (∀ c ∈ (slugify toLowerCase title).toList,
      c.isLower = true ∨ c.isDigit = true ∨ c = '-') ∧
    (handleChange toLowerCase prev (.text .title title)).slug = slugify toLowerCase title ∧
    (prev.slug = "" → postSlug toLowerCase prev = slugify toLowerCase prev.title) := by
  refine ⟨?_, rfl, ?_⟩
  · intro c hc
    have h1 := mem_jsTrim _ c hc
    rcases mem_replaceRuns _ _ _ _ c h1 with h2 | ⟨h2, h2n⟩
    · exact Or.inr (Or.inr h2)
    · rcases mem_replaceRuns _ _ _ _ c h2 with h3 | ⟨h3, h3n⟩
      · exact Or.inr (Or.inr h3)
      · have hk := (List.mem_filter.1 h3).2
        simp only [keptBySlug, Bool.or_eq_true] at hk
        rcases hk with ((hk | hk) | hk) | hk
        · exact Or.inl hk
        · exact Or.inr (Or.inl hk)
        · rw [h3n] at hk
          cases hk
        · rw [h2n] at hk
          cases hk
  · intro h
    simp [postSlug, h]

/-- The title "Hello, World 2024!" gives the slug "hello-world-2024", typed or submitted
with an empty slug field. -/
theorem slug_is_url_friendly_witness :
    (handleChange asciiLower FormData.initial (.text .title "Hello, World 2024!")).slug =
      "hello-world-2024" ∧
    postSlug asciiLower { FormData.initial with title := "Hello, World 2024!" } =
      "hello-world-2024" :=
  have h := slug_is_url_friendly asciiLower "Hello, World 2024!"
    { FormData.initial with title := "Hello, World 2024!" }
  ⟨h.2.1.trans (by decide), (h.2.2 rfl).trans (by decide)⟩

end CreatePost

namespace News

/-! ## Row ranges -/

/-- C20: for every page number `p >= 1` the public list (page size 9) and the admin list
(page size 10) request the rows from `(p-1)*size` to `p*size - 1`; the range holds
exactly `size` row indices, starts at a non-negative row, and the range of page `p+1`
starts right after the range of page `p` ends, so the two share no row and leave none
out. -/
theorem page_ranges_adjacent (p : Int) (hp : 1 ≤ p) :
    pageRange p = ((p - 1) * 9, p * 9 - 1) ∧
    AdminNews.pageRange p = ((p - 1) * 10, p * 10 - 1) ∧
    (Finset.Icc (pageRange p).1 (pageRange p).2).card = 9 ∧
    (Finset.Icc (AdminNews.pageRange p).1 (AdminNews.pageRange p).2).card = 10 ∧
    0 ≤ (pageRange p).1 ∧ 0 ≤ (AdminNews.pageRange p).1 ∧
    (pageRange (p + 1)).1 = (pageRange p).2 + 1 ∧
    (AdminNews.pageRange (p + 1)).1 = (AdminNews.pageRange p).2 + 1 ∧
    (∀ i : Int, ¬ (((pageRange p).1 ≤ i ∧ i ≤ (pageRange p).2) ∧
      ((pageRange (p + 1)).1 ≤ i ∧ i ≤ (pageRange (p + 1)).2))) ∧
    (∀ i : Int, (pageRange p).1 ≤ i → i ≤ (pageRange (p + 1)).2 →
      (i ≤ (pageRange p).2 ∨ (pageRange (p + 1)).1 ≤ i)) ∧
    (∀ i : Int, ¬ (((AdminNews.pageRange p).1 ≤ i ∧ i ≤ (AdminNews.pageRange p).2) ∧
      ((AdminNews.pageRange (p + 1)).1 ≤ i ∧ i ≤ (AdminNews.pageRange (p + 1)).2))) ∧
    (∀ i : Int, (AdminNews.pageRange p).1 ≤ i → i ≤ (AdminNews.pageRange (p + 1)).2 →
      (i ≤ (AdminNews.pageRange p).2 ∨ (AdminNews.pageRange (p + 1)).1 ≤ i)) := by
  simp only [pageRange, AdminNews.pageRange, pageSize, AdminNews.pageSize, Int.card_Icc]
  refine ⟨?_, ?_, ?_, ?_, ?_, ?_, ?_, ?_, ?_, ?_, ?_, ?_⟩
  · ext
    · simp
    · simp; ring
  · ext
    · simp
    · simp; ring
  · have : (p - 1) * 9 + 9 - 1 + 1 - (p - 1) * 9 = 9 := by ring
    rw [this]; rfl
  · have : (p - 1) * 10 + 10 - 1 + 1 - (p - 1) * 10 = 10 := by ring
    rw [this]; rfl
  · omega
  · omega
  · ring
  · ring
  · intro i; omega
  · intro i; omega
  · intro i; omega
  · intro i; omega

/-- Page 2: the public list asks for rows 9 to 17, the admin list for rows 10 to 19. -/
theorem page_ranges_adjacent_witness :
    pageRange 2 = (9, 17) ∧ AdminNews.pageRange 2 = (10, 19) ∧
    (pageRange 3).1 = (pageRange 2).2 + 1 :=
  have h := page_ranges_adjacent 2 (by decide)
  ⟨h.1, h.2.1, h.2.2.2.2.2.2.1⟩

end News

namespace Catalog

open MyTickets (truthy orStr)

/-! ## Facts about the derived fields -/

theorem foldl_min_le (ps : List ℚ) (p : ℚ) :
    ps.foldl min p ≤ p ∧ ∀ x ∈ ps, ps.foldl min p ≤ x := by
  induction ps generalizing p with
  | nil => simp
  | cons a ps ih =>
    simp only [List.foldl_cons, List.mem_cons]
    have h := ih (min p a)
    refine ⟨le_trans h.1 (min_le_left p a), ?_⟩
    intro x hx
    rcases hx with hx | hx
    · rw [hx]
      exact le_trans h.1 (min_le_right p a)
    · exact h.2 x hx

theorem foldl_min_mem (ps : List ℚ) (p : ℚ) : ps.foldl min p ∈ p :: ps := by
  induction ps generalizing p with
  | nil => simp
  | cons a ps ih =>
    simp only [List.foldl_cons]
    have h := ih (min p a)
    rcases List.mem_cons.1 h with h1 | h1
    · rw [h1]
      rcases min_choice p a with hm | hm
      · rw [hm]; exact List.mem_cons_self _ _
      · rw [hm]; exact List.mem_cons_of_mem _ (List.mem_cons_self _ _)
    · exact List.mem_cons_of_mem _ (List.mem_cons_of_mem _ h1)

theorem mem_positivePrices (tiers : List Tier) (q : ℚ) :
    q ∈ positivePrices tiers ↔ ∃ t ∈ tiers, t.price = some q ∧ 0 < q := by
  simp only [positivePrices, List.mem_filter, List.mem_map, decide_eq_true_eq]
  constructor
  · rintro ⟨⟨t, ht, hq⟩, hpos⟩
    refine ⟨t, ht, ?_, hpos⟩
    cases hp : t.price with
    | none =>
      rw [hp] at hq
      simp at hq
      rw [← hq] at hpos
      exact absurd hpos (lt_irrefl 0)
    | some v =>
      rw [hp] at hq
      simp at hq
      rw [hq]
  · rintro ⟨t, ht, hq, hpos⟩
    exact ⟨⟨t, ht, by simp [hq]⟩, hpos⟩

theorem lowestPrice_of_no_positive (tiers : List Tier)
    (h : positivePrices tiers = []) : lowestPrice tiers = 0 := by
  unfold lowestPrice
  split
  · rw [h]
  · rfl

theorem lowestPrice_of_positive (tiers : List Tier) (h : positivePrices tiers ≠ []) :
    lowestPrice tiers ∈ positivePrices tiers ∧
    ∀ x ∈ positivePrices tiers, lowestPrice tiers ≤ x := by
  have hlen : 0 < tiers.length := by
    cases tiers with
    | nil => exact absurd rfl h
    | cons a l => simp
  unfold lowestPrice
  simp only [hlen, if_true]
  cases hpp : positivePrices tiers with
  | nil => exact absurd hpp h
  | cons p ps =>
    simp only
    refine ⟨foldl_min_mem ps p, ?_⟩
    intro x hx
    rcases List.mem_cons.1 hx with hx | hx
    · rw [hx]
      exact (foldl_min_le ps p).1
    · exact (foldl_min_le ps p).2 x hx

theorem positivePrices_eq_nil_iff (tiers : List Tier) :
    positivePrices tiers = [] ↔ ∀ t ∈ tiers, ∀ p, t.price = some p → ¬ 0 < p := by
  constructor
  · intro h t ht p hp hpos
    have : p ∈ positivePrices tiers := (mem_positivePrices tiers p).2 ⟨t, ht, hp, hpos⟩
    rw [h] at this
    cases this
  · intro h
    rw [List.eq_nil_iff_forall_not_mem]
    intro q hq
    obtain ⟨t, ht, hp, hpos⟩ := (mem_positivePrices tiers q).1 hq
    exact h t ht q hp hpos

theorem lowestPrice_pos_iff (tiers : List Tier) :
    0 < lowestPrice tiers ↔ ∃ t ∈ tiers, ∃ p, t.price = some p ∧ 0 < p := by
  constructor
  · intro h
    by_cases hn : positivePrices tiers = []
    · rw [lowestPrice_of_no_positive tiers hn] at h
      exact absurd h (lt_irrefl 0)
    · obtain ⟨t, ht, hp, hpos⟩ :=
        (mem_positivePrices tiers _).1 (lowestPrice_of_positive tiers hn).1
      exact ⟨t, ht, _, hp, hpos⟩
  · rintro ⟨t, ht, p, hp, hpos⟩
    have hmem : p ∈ positivePrices tiers := (mem_positivePrices tiers p).2 ⟨t, ht, hp, hpos⟩
    have hn : positivePrices tiers ≠ [] := List.ne_nil_of_mem hmem
    exact ((mem_positivePrices tiers _).1 (lowestPrice_of_positive tiers hn).1).choose_spec.2.2

theorem pricePositive_iff (t : Tier) :
    t.pricePositive = true ↔ ∃ p, t.price = some p ∧ 0 < p := by
  unfold Tier.pricePositive
  cases hp : t.price with
  | none => simp
  | some v => simp

theorem isSoldOut_of_positive (tiers : List Tier)
    (h : ∃ t ∈ tiers, ∃ p, t.price = some p ∧ 0 < p) :
    isSoldOut tiers = (tiers.filter Tier.pricePositive).all Tier.paidSoldOut := by
  have hpos := (lowestPrice_pos_iff tiers).2 h
  have hlen : 0 < tiers.length := by
    obtain ⟨t, ht, _⟩ := h
    exact List.length_pos_of_mem ht
  simp [isSoldOut, hlen, hpos]

theorem isSoldOut_of_no_positive (tiers : List Tier) (hne : tiers ≠ [])
    (h : ∀ t ∈ tiers, ∀ p, t.price = some p → ¬ 0 < p) :
    isSoldOut tiers = (tiers.filter Tier.priceIsZero).all Tier.freeSoldOut := by
  have hz := lowestPrice_of_no_positive tiers ((positivePrices_eq_nil_iff tiers).2 h)
  have hlen : 0 < tiers.length := List.length_pos.2 hne
  simp [isSoldOut, hlen, hz]

/-! ## The lowest price -/

/-- C16: for every event the lowest price computed by `fetchEvents` is at most every
positive tier price and, when some tier has a positive price, is positive and is the price
of one of the tiers; it is 0 when no tier has a positive price; and the card price is the
text "Free" exactly when no tier has a positive price, the amount shown otherwise being
the lowest price. -/
theorem lowestPrice_is_min (event : RawEvent) :
    (∀ t ∈ event.ticket_tiers.getD [], ∀ p, t.price = some p → 0 < p →
      lowestPrice (event.ticket_tiers.getD []) ≤ p) ∧
    ((∃ t ∈ event.ticket_tiers.getD [], ∃ p, t.price = some p ∧ 0 < p) →
      0 < lowestPrice (event.ticket_tiers.getD []) ∧
      ∃ t ∈ event.ticket_tiers.getD [],
        t.price = some (lowestPrice (event.ticket_tiers.getD []))) ∧
    ((∀ t ∈ event.ticket_tiers.getD [], ∀ p, t.price = some p → ¬ 0 < p) →
      lowestPrice (event.ticket_tiers.getD []) = 0) ∧
    ((processEvent event).price = .free ↔
      ∀ t ∈ event.ticket_tiers.getD [], ∀ p, t.price = some p → ¬ 0 < p) ∧
    (∀ v, (processEvent event).price = .amount v →
      v = lowestPrice (event.ticket_tiers.getD [])) := by
  refine ⟨?_, ?_, ?_, ?_, ?_⟩
  · intro t ht p hp hpos
    have hmem : p ∈ positivePrices (event.ticket_tiers.getD []) :=
      (mem_positivePrices _ p).2 ⟨t, ht, hp, hpos⟩
    exact (lowestPrice_of_positive _ (List.ne_nil_of_mem hmem)).2 p hmem
  · intro h
    have hpos := (lowestPrice_pos_iff _).2 h
    refine ⟨hpos, ?_⟩
    have hn : positivePrices (event.ticket_tiers.getD []) ≠ [] := by
      intro hnil
      rw [lowestPrice_of_no_positive _ hnil] at hpos
      exact absurd hpos (lt_irrefl 0)
    obtain ⟨t, ht, hp, _⟩ := (mem_positivePrices _ _).1 (lowestPrice_of_positive _ hn).1
    exact ⟨t, ht, hp⟩
  · intro h
    exact lowestPrice_of_no_positive _ ((positivePrices_eq_nil_iff _).2 h)
  · rw [← positivePrices_eq_nil_iff]
    constructor
    · intro h
      by_contra hn
      have hmem := (lowestPrice_of_positive _ hn).1
      have hpos := ((mem_positivePrices _ _).1 hmem).choose_spec.2.2
      have hz : lowestPrice (event.ticket_tiers.getD []) = 0 := by
        by_contra hne
        simp [processEvent, hne] at h
      rw [hz] at hpos
      exact absurd hpos (lt_irrefl 0)
    · intro h
      simp [processEvent, lowestPrice_of_no_positive _ h]
  · intro v hv
    simp only [processEvent] at hv
    split at hv
    · cases hv
    · cases hv
      rfl

/-- The event with tiers at 5000 and 2500: the lowest price is 2500 and the card shows
an amount, not "Free". -/
theorem lowestPrice_is_min_witness :
    lowestPrice (paidEvent.ticket_tiers.getD []) ≤ 2500 ∧
    0 < lowestPrice (paidEvent.ticket_tiers.getD []) :=
  have h := lowestPrice_is_min paidEvent
  ⟨h.1 (sampleTier (some 2500) 50 0 50) (by decide) 2500 rfl (by decide),
   (h.2.1 ⟨sampleTier (some 2500) 50 0 50, by decide, 2500, rfl, by decide⟩).1⟩

/-! ## The sold-out flag -/

/-- C17 fails as stated: the event without tiers has no positively priced tier and every
zero-priced tier of it (there is none) is sold out, and still `isSoldOut` is false and
the card shows the count 0. -/
theorem untiered_event_not_sold_out :
    (∀ t ∈ bareEvent.ticket_tiers.getD [], ∀ p, t.price = some p → ¬ 0 < p) ∧
    (∀ t ∈ bareEvent.ticket_tiers.getD [], t.price = some 0 →
      t.quantity.getD 0 ≤ t.quantity_sold.getD 0) ∧
    (processEvent bareEvent).isSoldOut = false ∧
    (processEvent bareEvent).ticketCount = .count 0 := by
  refine ⟨?_, ?_, by decide, by decide⟩
  · intro t ht
    simp [bareEvent] at ht
  · intro t ht
    simp [bareEvent] at ht

/-- C17 as amended: for an event with at least one positively priced tier, `isSoldOut` is
true exactly when every positively priced tier has quantity at most `paid_quantity_sold`
(missing counted as 0); for an event with at least one tier and no positively priced
tier, `isSoldOut` is true exactly when every tier priced exactly 0 has quantity at most
`quantity_sold`; for an event without tiers `isSoldOut` is false; and `ticketCount` is
the text "No available ticket for this event" exactly when `isSoldOut` is true. -/
theorem isSoldOut_by_pricing (event : RawEvent) :
    ((∃ t ∈ event.ticket_tiers.getD [], ∃ p, t.price = some p ∧ 0 < p) →
      ((processEvent event).isSoldOut = true ↔
        ∀ t ∈ event.ticket_tiers.getD [], (∃ p, t.price = some p ∧ 0 < p) →
          t.quantity.getD 0 ≤ t.paid_quantity_sold.getD 0)) ∧
    (event.ticket_tiers.getD [] ≠ [] →
      (∀ t ∈ event.ticket_tiers.getD [], ∀ p, t.price = some p → ¬ 0 < p) →
      ((processEvent event).isSoldOut = true ↔
        ∀ t ∈ event.ticket_tiers.getD [], t.price = some 0 →
          t.quantity.getD 0 ≤ t.quantity_sold.getD 0)) ∧
    (event.ticket_tiers.getD [] = [] → (processEvent event).isSoldOut = false) ∧
    ((processEvent event).ticketCount = .text "No available ticket for this event" ↔
      (processEvent event).isSoldOut = true) := by
  have hdef : (processEvent event).isSoldOut = isSoldOut (event.ticket_tiers.getD []) := rfl
  refine ⟨?_, ?_, ?_, ?_⟩
  · intro h
    rw [hdef, isSoldOut_of_positive _ h, List.all_eq_true]
    constructor
    · intro hall t ht hp
      have := hall t (List.mem_filter.2 ⟨ht, (pricePositive_iff t).2 hp⟩)
      simpa [Tier.paidSoldOut] using this
    · intro hall t ht
      have hm := List.mem_filter.1 ht
      have := hall t hm.1 ((pricePositive_iff t).1 hm.2)
      simpa [Tier.paidSoldOut] using this
  · intro hne h
    rw [hdef, isSoldOut_of_no_positive _ hne h, List.all_eq_true]
    constructor
    · intro hall t ht hp
      have := hall t (List.mem_filter.2 ⟨ht, by simp [Tier.priceIsZero, hp]⟩)
      simpa [Tier.freeSoldOut] using this
    · intro hall t ht
      have hm := List.mem_filter.1 ht
      have hz : t.price = some 0 := by simpa [Tier.priceIsZero] using hm.2
      have := hall t hm.1 hz
      simpa [Tier.freeSoldOut] using this
  · intro h
    rw [hdef, h]
    rfl
  · simp only [processEvent]
    split <;> simp_all

/-- The sold-out paid event and the sold-out free event are flagged, and their cards
say so. -/
theorem isSoldOut_by_pricing_witness :
    (processEvent lateEvent).isSoldOut = true ∧
    (processEvent freeEvent).isSoldOut = true ∧
    (processEvent lateEvent).ticketCount = .text "No available ticket for this event" :=
  by
  have h := isSoldOut_by_pricing lateEvent
  have k := isSoldOut_by_pricing freeEvent
  have hpaid : ∃ t ∈ lateEvent.ticket_tiers.getD [], ∃ p, t.price = some p ∧ 0 < p :=
    ⟨sampleTier (some 1500) 10 0 10, by decide, 1500, rfl, by decide⟩
  have hlate : (processEvent lateEvent).isSoldOut = true := by
    refine (h.1 hpaid).2 ?_
    intro t ht _
    simp only [lateEvent, Option.getD_some, List.mem_singleton] at ht
    rw [ht]
    decide
  have hnone : ∀ t ∈ freeEvent.ticket_tiers.getD [], ∀ p, t.price = some p → ¬ 0 < p := by
    intro t ht p hp
    simp only [freeEvent, Option.getD_some, List.mem_singleton] at ht
    rw [ht] at hp
    have hp0 : (0 : ℚ) = p := Option.some.inj hp
    rw [← hp0]
    exact lt_irrefl 0
  have hfree : (processEvent freeEvent).isSoldOut = true := by
    refine (k.2.1 (by decide) hnone).2 ?_
    intro t ht _
    simp only [freeEvent, Option.getD_some, List.mem_singleton] at ht
    rw [ht]
    decide
  exact ⟨hlate, hfree, h.2.2.2.2 hlate⟩

/-! ## The order of the events -/

theorem newestFirst_trans (a b c : ProcessedEvent) (h1 : newestFirst a b)
    (h2 : newestFirst b c) : newestFirst a c := by
  unfold newestFirst at *
  cases ha : a.eventDate <;> cases hb : b.eventDate <;> cases hc : c.eventDate <;>
    simp_all
  omega

theorem newestFirst_of_compare_neg (x e : ProcessedEvent) (h : compareEvents x e < 0) :
    newestFirst x e := by
  unfold newestFirst compareEvents at *
  cases hx : x.eventDate <;> cases he : e.eventDate <;> simp_all
  omega

theorem newestFirst_of_compare_nonneg (x e : ProcessedEvent)
    (h : ¬ compareEvents x e < 0) : newestFirst e x := by
  unfold newestFirst compareEvents at *
  cases hx : x.eventDate <;> cases he : e.eventDate <;> simp_all

theorem mem_insertSorted {α : Type} (cmp : α → α → Int) (x y : α) (l : List α) :
    y ∈ insertSorted cmp x l ↔ y = x ∨ y ∈ l := by
  induction l with
  | nil => simp [insertSorted]
  | cons e rest ih =>
    simp only [insertSorted]
    split
    · simp
    · simp only [List.mem_cons, ih]
      constructor
      · rintro (h | h | h)
        · exact Or.inr (Or.inl h)
        · exact Or.inl h
        · exact Or.inr (Or.inr h)
      · rintro (h | h | h)
        · exact Or.inr (Or.inl h)
        · exact Or.inl h
        · exact Or.inr (Or.inr h)

theorem perm_insertSorted {α : Type} (cmp : α → α → Int) (x : α) (l : List α) :
    (insertSorted cmp x l).Perm (x :: l) := by
  induction l with
  | nil => simp [insertSorted]
  | cons e rest ih =>
    simp only [insertSorted]
    split
    · exact List.Perm.refl _
    · exact (List.Perm.cons e ih).trans (List.Perm.swap x e rest)

theorem pairwise_insertSorted (x : ProcessedEvent) (l : List ProcessedEvent)
    (h : l.Pairwise newestFirst) : (insertSorted compareEvents x l).Pairwise newestFirst := by
  induction l with
  | nil => simp [insertSorted]
  | cons e rest ih =>
    rw [List.pairwise_cons] at h
    simp only [insertSorted]
    split
    · rename_i hlt
      have hxe := newestFirst_of_compare_neg x e hlt
      rw [List.pairwise_cons]
      refine ⟨?_, List.pairwise_cons.2 h⟩
      intro y hy
      rcases List.mem_cons.1 hy with hy | hy
      · rw [hy]; exact hxe
      · exact newestFirst_trans x e y hxe (h.1 y hy)
    · rename_i hge
      have hex := newestFirst_of_compare_nonneg x e hge
      rw [List.pairwise_cons]
      refine ⟨?_, ih h.2⟩
      intro y hy
      rcases (mem_insertSorted compareEvents x y rest).1 hy with hy | hy
      · rw [hy]; exact hex
      · exact h.1 y hy

theorem arraySort_foldl (l acc : List ProcessedEvent) (h : acc.Pairwise newestFirst) :
    (l.foldl (fun acc x => insertSorted compareEvents x acc) acc).Pairwise newestFirst ∧
    (l.foldl (fun acc x => insertSorted compareEvents x acc) acc).Perm (acc ++ l) := by
  induction l generalizing acc with
  | nil => simpa using h
  | cons a l ih =>
    simp only [List.foldl_cons]
    have h1 := ih (insertSorted compareEvents a acc) (pairwise_insertSorted a acc h)
    refine ⟨h1.1, h1.2.trans ?_⟩
    have h2 : (insertSorted compareEvents a acc ++ l).Perm ((a :: acc) ++ l) :=
      List.Perm.append_right l (perm_insertSorted compareEvents a acc)
    refine h2.trans ?_
    simp only [List.cons_append]
    exact (@List.perm_middle _ a acc l).symm

/-- C18: for every list of fetched events the sorted list that `fetchEvents` stores is a
permutation of the processed events in which no undated event stands before a dated one
and the dated events stand in non-increasing date order. -/
theorem sortedEvents_newest_first (events : List RawEvent) (s : HomeState) :
    (sortedEvents events).Perm (events.map processEvent) ∧
    (sortedEvents events).Pairwise (fun a b =>
      (a.eventDate = none → b.eventDate = none) ∧
      ∀ x y, a.eventDate = some x → b.eventDate = some y → y ≤ x) ∧
    (fetchEvents true (.rows events) s).upcomingEvents = sortedEvents events := by
  have h := arraySort_foldl (events.map processEvent) [] List.Pairwise.nil
  refine ⟨by simpa [sortedEvents, arraySort] using h.2, ?_, ?_⟩
  · refine List.Pairwise.imp ?_ h.1
    intro a b hab
    unfold newestFirst at hab
    cases ha : a.eventDate <;> cases hb : b.eventDate <;> simp_all
  · cases events with
    | nil => rfl
    | cons e es => simp [fetchEvents]

end Catalog

namespace Catalog

open MyTickets (truthy orStr)

/-! ## The purchase handoff -/

/-- C19: for every event, `handleGetTickets` without a stored user selects the event and
shows the login prompt, leaving the ticket modal flag as it was (closed if it was
closed); with a stored user it selects the formatted event, opens the ticket modal,
closes the preview modal and leaves the login prompt flag as it was (hidden if it was
hidden). -/
theorem handleGetTickets_modals (storedUser : Option String) (s : HomeState)
    (event : ProcessedEvent) :
    (truthy storedUser = false →
      (handleGetTickets storedUser s event).selectedEvent = some (.card event) ∧
      loginPromptShown (handleGetTickets storedUser s event) = true ∧
      (handleGetTickets storedUser s event).showTicketModal = s.showTicketModal ∧
      (s.showTicketModal = false →
        ticketModalShown (handleGetTickets storedUser s event) = false)) ∧
    (truthy storedUser = true →
      (handleGetTickets storedUser s event).selectedEvent =
        some (.formatted (formatEvent event)) ∧
      ticketModalShown (handleGetTickets storedUser s event) = true ∧
      (handleGetTickets storedUser s event).showModal = false ∧
      previewShown (handleGetTickets storedUser s event) = false ∧
      (handleGetTickets storedUser s event).showLoginPrompt = s.showLoginPrompt ∧
      (s.showLoginPrompt = false →
        loginPromptShown (handleGetTickets storedUser s event) = false)) := by
  constructor
  · intro h
    simp [handleGetTickets, h, loginPromptShown, ticketModalShown]
  · intro h
    simp [handleGetTickets, h, loginPromptShown, ticketModalShown, previewShown]

/-- On the first render: a visitor gets the login prompt and no ticket modal, a stored
user gets the ticket modal and no login prompt. -/
theorem handleGetTickets_modals_witness :
    (loginPromptShown (handleGetTickets none HomeState.initial (processEvent paidEvent)) = true ∧
      ticketModalShown (handleGetTickets none HomeState.initial (processEvent paidEvent))
        = false) ∧
    (ticketModalShown
        (handleGetTickets (some "ada") HomeState.initial (processEvent paidEvent)) = true ∧
      loginPromptShown
        (handleGetTickets (some "ada") HomeState.initial (processEvent paidEvent)) = false) :=
  have h := handleGetTickets_modals none HomeState.initial (processEvent paidEvent)
  have k := handleGetTickets_modals (some "ada") HomeState.initial (processEvent paidEvent)
  ⟨⟨(h.1 rfl).2.1, (h.1 rfl).2.2.2 rfl⟩, ⟨(k.2 rfl).2.1, (k.2 rfl).2.2.2.2.2 rfl⟩⟩

end Catalog

namespace CreatePost

/-! ## Submission -/

/-- C23: `handleSubmit` rejects the form, issuing no insert and setting an error message,
when no admin is loaded, or the title, the excerpt or the content is empty, or the
author is empty; in every other case it issues exactly one insert, into `news_posts`, of
a post whose title, excerpt, content, category, status, `is_featured` and author are the
values of the form. -/
theorem handleSubmit_validates (toLowerCase : String → String) (uuid now : String)
    (db : PostData → InsertResult) (s : FormState) :
    ((s.admin = none ∨ s.formData.title = "" ∨ s.formData.excerpt = "" ∨
        s.formData.content = "" ∨ s.formData.author = "") →
      (handleSubmit toLowerCase uuid now db s).2.filter SubmitEffect.isInsert = [] ∧
      (∃ message, message ≠ "" ∧
        (handleSubmit toLowerCase uuid now db s).1.error = some message)) ∧
    (¬ (s.admin = none ∨ s.formData.title = "" ∨ s.formData.excerpt = "" ∨
        s.formData.content = "" ∨ s.formData.author = "") →
      ∃ post, (handleSubmit toLowerCase uuid now db s).2.filter SubmitEffect.isInsert =
          [.insert "news_posts" post] ∧
        post.title = s.formData.title ∧ post.excerpt = s.formData.excerpt ∧
        post.content = s.formData.content ∧ post.category = s.formData.category ∧
        post.status = s.formData.status ∧ post.is_featured = s.formData.is_featured ∧
        post.author = s.formData.author) := by
  constructor
  · intro h
    by_cases ha : s.admin = none
    · simp only [handleSubmit, ha, Option.isNone_none, if_true]
      exact ⟨rfl, _, by decide, rfl⟩
    · have ha2 : s.admin.isNone = false := by
        cases hs : s.admin with
        | none => exact absurd hs ha
        | some a => rfl
      by_cases hf : s.formData.title = "" ∨ s.formData.excerpt = "" ∨ s.formData.content = ""
      · have hb : (s.formData.title == "" || s.formData.content == "" ||
            s.formData.excerpt == "") = true := by
          rcases hf with hf | hf | hf <;> simp [hf]
        simp only [handleSubmit, ha2, Bool.false_eq_true, if_false, hb, if_true]
        exact ⟨rfl, _, by decide, rfl⟩
      · have hb : (s.formData.title == "" || s.formData.content == "" ||
            s.formData.excerpt == "") = false := by
          simp only [not_or] at hf
          simp [hf.1, hf.2.1, hf.2.2]
        have hau : s.formData.author = "" := by
          rcases h with h | h | h | h | h
          · exact absurd h ha
          · exact absurd (Or.inl h) hf
          · exact absurd (Or.inr (Or.inl h)) hf
          · exact absurd (Or.inr (Or.inr h)) hf
          · exact h
        simp only [handleSubmit, ha2, Bool.false_eq_true, if_false, hb, hau, beq_self_eq_true,
          if_true]
        exact ⟨rfl, _, by decide, rfl⟩
  · intro h
    simp only [not_or] at h
    obtain ⟨ha, ht, he, hc, hau⟩ := h
    have ha2 : s.admin.isNone = false := by
      cases hs : s.admin with
      | none => exact absurd hs ha
      | some a => rfl
    have hb : (s.formData.title == "" || s.formData.content == "" ||
        s.formData.excerpt == "") = false := by
      simp [ht, he, hc]
    have hb2 : (s.formData.author == "") = false := by simp [hau]
    refine ⟨buildPostData toLowerCase uuid now s, ?_, rfl, rfl, rfl, rfl, rfl, rfl, rfl⟩
    simp only [handleSubmit, ha2, Bool.false_eq_true, if_false, hb, hb2]
    cases db (buildPostData toLowerCase uuid now s) <;>
      simp [List.filter, SubmitEffect.isInsert]

/-- The form without an excerpt is refused with no insert; the filled form is inserted
once, under the slug generated from its title. -/
theorem handleSubmit_validates_witness :
    (handleSubmit asciiLower "u-1" "2025-01-01T00:00:00.000Z" acceptingDb
        formWithoutExcerpt).2.filter SubmitEffect.isInsert = [] ∧
    (∃ post, (handleSubmit asciiLower "u-1" "2025-01-01T00:00:00.000Z" acceptingDb
        filledForm).2.filter SubmitEffect.isInsert = [.insert "news_posts" post] ∧
      post.title = "Hello, World 2024!" ∧ post.author = "Ada Obi") := by
  have h := handleSubmit_validates asciiLower "u-1" "2025-01-01T00:00:00.000Z" acceptingDb
    formWithoutExcerpt
  have k := handleSubmit_validates asciiLower "u-1" "2025-01-01T00:00:00.000Z" acceptingDb
    filledForm
  refine ⟨(h.1 (Or.inr (Or.inr (Or.inl rfl)))).1, ?_⟩
  obtain ⟨post, h1, h2, _, _, _, _, _, h3⟩ := k.2 (by decide)
  exact ⟨post, h1, h2, h3⟩

end CreatePost

namespace News

/-! ## Page buttons -/

/-- C21: for `totalPages >= 1` and every current page, so in particular for
`1 <= currentPage <= totalPages`, `getPageButtons` returns the pages 1 to `totalPages` in
order when `totalPages <= 5`; in every case the first entry is page 1 and the last entry
is page `totalPages`. -/
theorem getPageButtons_first_last (totalPages currentPage : Int) (h1 : 1 ≤ totalPages) :
    (totalPages ≤ 5 → getPageButtons totalPages currentPage =
      (List.range totalPages.toNat).map (fun (k : Nat) => PageButton.page (1 + (k : Int)))) ∧
    (getPageButtons totalPages currentPage).head? = some (PageButton.page 1) ∧
    (getPageButtons totalPages currentPage).getLast? = some (PageButton.page totalPages) := by
  have hsmall : totalPages ≤ 5 → getPageButtons totalPages currentPage =
      (List.range totalPages.toNat).map (fun (k : Nat) => PageButton.page (1 + (k : Int))) := by
    intro h5
    have : totalPages + 1 - 1 = totalPages := by ring
    simp [getPageButtons, maxVisibleButtons, h5, pagesFromTo, this]
  refine ⟨hsmall, ?_, ?_⟩
  · by_cases h5 : totalPages ≤ 5
    · rw [hsmall h5]
      obtain ⟨n, hn⟩ : ∃ n : Nat, totalPages.toNat = n + 1 :=
        ⟨totalPages.toNat - 1, by omega⟩
      rw [hn, List.range_succ_eq_map]
      simp
    · simp [getPageButtons, maxVisibleButtons, h5]
  · by_cases h5 : totalPages ≤ 5
    · rw [hsmall h5]
      obtain ⟨n, hn⟩ : ∃ n : Nat, totalPages.toNat = n + 1 :=
        ⟨totalPages.toNat - 1, by omega⟩
      rw [hn, List.range_succ, List.map_append, List.map_cons, List.map_nil,
        List.getLast?_concat]
      have : (1 : Int) + (n : Int) = totalPages := by omega
      rw [this]
    · unfold getPageButtons
      rw [if_neg (by simpa [maxVisibleButtons] using h5)]
      exact List.getLast?_concat _

/-- Ten pages, page 5 current: the buttons run from page 1 to page 10. -/
theorem getPageButtons_first_last_witness :
    (getPageButtons 10 5).head? = some (PageButton.page 1) ∧
    (getPageButtons 10 5).getLast? = some (PageButton.page 10) :=
  (getPageButtons_first_last 10 5 (by decide)).2

end News

namespace Catalog

/-! ## Sold out and tickets left -/

theorem foldl_add_eq_sum (f : Tier → Int) (l : List Tier) (init : Int) :
    l.foldl (fun sum tier => sum + f tier) init = init + (l.map f).sum := by
  induction l generalizing init with
  | nil => simp
  | cons a l ih =>
    simp only [List.foldl_cons, List.map_cons, List.sum_cons]
    rw [ih]
    ring

theorem sum_eq_zero_iff_of_nonneg (l : List Int) (h : ∀ x ∈ l, 0 ≤ x) :
    l.sum = 0 ↔ ∀ x ∈ l, x = 0 := by
  induction l with
  | nil => simp
  | cons a l ih =>
    have ha : 0 ≤ a := h a (List.mem_cons_self a l)
    have hl : ∀ x ∈ l, 0 ≤ x := fun x hx => h x (List.mem_cons_of_mem a hx)
    have hs : 0 ≤ l.sum := List.sum_nonneg hl
    simp only [List.sum_cons, List.mem_cons, forall_eq_or_imp]
    rw [← ih hl]
    constructor
    · intro hsum
      constructor <;> omega
    · rintro ⟨h0, h1⟩
      omega

theorem totalTickets_of_positive (tiers : List Tier)
    (h : ∃ t ∈ tiers, ∃ p, t.price = some p ∧ 0 < p) :
    totalTickets tiers =
      ((tiers.filter Tier.pricePositive).map Tier.paidRemaining).sum := by
  have hpos := (lowestPrice_pos_iff tiers).2 h
  have hlen : 0 < tiers.length := by
    obtain ⟨t, ht, _⟩ := h
    exact List.length_pos_of_mem ht
  simp [totalTickets, hlen, hpos, foldl_add_eq_sum]

theorem totalTickets_of_no_positive (tiers : List Tier) (hne : tiers ≠ [])
    (h : ∀ t ∈ tiers, ∀ p, t.price = some p → ¬ 0 < p) :
    totalTickets tiers =
      ((tiers.filter Tier.priceIsZero).map Tier.freeRemaining).sum := by
  have hz := lowestPrice_of_no_positive tiers ((positivePrices_eq_nil_iff tiers).2 h)
  have hlen : 0 < tiers.length := List.length_pos.2 hne
  simp [totalTickets, hlen, hz, foldl_add_eq_sum]

/-- C25: for an event with at least one tier in which no counted tier is oversold (a
positively priced tier has `paid_quantity_sold <= quantity`, and, when no tier is
positively priced, a tier priced 0 has `quantity_sold <= quantity`, missing counts being
0), `isSoldOut` is true exactly when the total of remaining tickets `fetchEvents`
computes is 0. -/
theorem isSoldOut_iff_none_left (event : RawEvent)
    (hne : event.ticket_tiers.getD [] ≠ [])
    (hpaid : ∀ t ∈ event.ticket_tiers.getD [], (∃ p, t.price = some p ∧ 0 < p) →
      t.paid_quantity_sold.getD 0 ≤ t.quantity.getD 0)
    (hfree : (∀ t ∈ event.ticket_tiers.getD [], ∀ p, t.price = some p → ¬ 0 < p) →
      ∀ t ∈ event.ticket_tiers.getD [], t.price = some 0 →
        t.quantity_sold.getD 0 ≤ t.quantity.getD 0) :
    (processEvent event).isSoldOut = true ↔ totalTickets (event.ticket_tiers.getD []) = 0 := by
  have hdef : (processEvent event).isSoldOut = isSoldOut (event.ticket_tiers.getD []) := rfl
  rw [hdef]
  by_cases hpos : ∃ t ∈ event.ticket_tiers.getD [], ∃ p, t.price = some p ∧ 0 < p
  · rw [isSoldOut_of_positive _ hpos, totalTickets_of_positive _ hpos, List.all_eq_true,
      sum_eq_zero_iff_of_nonneg]
    · constructor
      · intro hall x hx
        obtain ⟨t, ht, rfl⟩ := List.mem_map.1 hx
        have h1 := hall t ht
        have hm := List.mem_filter.1 ht
        have h2 := hpaid t hm.1 ((pricePositive_iff t).1 hm.2)
        simp only [Tier.paidSoldOut, decide_eq_true_eq] at h1
        simp only [Tier.paidRemaining]
        omega
      · intro hall t ht
        have h1 := hall _ (List.mem_map_of_mem Tier.paidRemaining ht)
        simp only [Tier.paidRemaining] at h1
        simp only [Tier.paidSoldOut, decide_eq_true_eq]
        omega
    · intro x hx
      obtain ⟨t, ht, rfl⟩ := List.mem_map.1 hx
      have hm := List.mem_filter.1 ht
      have h2 := hpaid t hm.1 ((pricePositive_iff t).1 hm.2)
      simp only [Tier.paidRemaining]
      omega
  · have hnone : ∀ t ∈ event.ticket_tiers.getD [], ∀ p, t.price = some p → ¬ 0 < p := by
      intro t ht p hp hlt
      exact hpos ⟨t, ht, p, hp, hlt⟩
    have hz : ∀ t ∈ (event.ticket_tiers.getD []).filter Tier.priceIsZero,
        t.quantity_sold.getD 0 ≤ t.quantity.getD 0 := by
      intro t ht
      have hm := List.mem_filter.1 ht
      exact hfree hnone t hm.1 (by simpa [Tier.priceIsZero] using hm.2)
    rw [isSoldOut_of_no_positive _ hne hnone, totalTickets_of_no_positive _ hne hnone,
      List.all_eq_true, sum_eq_zero_iff_of_nonneg]
    · constructor
      · intro hall x hx
        obtain ⟨t, ht, rfl⟩ := List.mem_map.1 hx
        have h1 := hall t ht
        have h2 := hz t ht
        simp only [Tier.freeSoldOut, decide_eq_true_eq] at h1
        simp only [Tier.freeRemaining]
        omega
      · intro hall t ht
        have h1 := hall _ (List.mem_map_of_mem Tier.freeRemaining ht)
        simp only [Tier.freeRemaining] at h1
        simp only [Tier.freeSoldOut, decide_eq_true_eq]
        omega
    · intro x hx
      obtain ⟨t, ht, rfl⟩ := List.mem_map.1 hx
      have h2 := hz t ht
      simp only [Tier.freeRemaining]
      omega

/-- The event with 60 and 0 paid tickets left is not sold out and counts 60. -/
theorem isSoldOut_iff_none_left_witness :
    ((processEvent paidEvent).isSoldOut = true ↔
      totalTickets (paidEvent.ticket_tiers.getD []) = 0) ∧
    totalTickets (paidEvent.ticket_tiers.getD []) = 60 := by
  refine ⟨isSoldOut_iff_none_left paidEvent (by decide) ?_ ?_, by decide⟩
  · intro t ht _
    simp only [paidEvent, Option.getD_some, List.mem_cons, List.mem_singleton,
      List.not_mem_nil, or_false] at ht
    rcases ht with ht | ht <;> rw [ht] <;> decide
  · intro _ t ht _
    simp only [paidEvent, Option.getD_some, List.mem_cons, List.mem_singleton,
      List.not_mem_nil, or_false] at ht
    rcases ht with ht | ht <;> rw [ht] <;> decide

end Catalog

namespace PrivateTicket

open MyTickets (isJsWhitespace digitsToNat)

/-! ## The time of day -/

theorem isDigit_bounds (c : Char) (h : c.isDigit = true) : 48 ≤ c.toNat ∧ c.toNat ≤ 57 := by
  simp only [Char.isDigit, Bool.and_eq_true, decide_eq_true_eq, ge_iff_le] at h
  exact ⟨h.1, h.2⟩

theorem not_ws_of_isDigit (c : Char) (h : c.isDigit = true) : isJsWhitespace c = false := by
  have hb := isDigit_bounds c h
  simp only [isJsWhitespace, Bool.or_eq_false_iff, beq_eq_false_iff_ne, ne_eq,
    Bool.and_eq_false_imp, decide_eq_true_eq, decide_eq_false_iff_not]
  omega

theorem splitOn_of_not_mem (sep : Char) (l : List Char) (h : sep ∉ l) :
    splitOn sep l = [l] := by
  induction l with
  | nil => rfl
  | cons c cs ih =>
    have hc : c ≠ sep := fun e => h (e ▸ List.mem_cons_self c cs)
    have hcs : sep ∉ cs := fun e => h (List.mem_cons_of_mem c e)
    simp [splitOn, hc, ih hcs]

theorem splitOn_append_sep (sep : Char) (l r : List Char) (h : sep ∉ l) :
    splitOn sep (l ++ sep :: r) = l :: splitOn sep r := by
  induction l with
  | nil => simp [splitOn]
  | cons c cs ih =>
    have hc : c ≠ sep := fun e => h (e ▸ List.mem_cons_self c cs)
    have hcs : sep ∉ cs := fun e => h (List.mem_cons_of_mem c e)
    simp [splitOn, hc, ih hcs]

theorem takeWhile_eq_self_of_all {α : Type} (p : α → Bool) (l : List α)
    (h : ∀ x ∈ l, p x = true) : l.takeWhile p = l := by
  induction l with
  | nil => rfl
  | cons a l ih =>
    have ha := h a (List.mem_cons_self a l)
    rw [List.takeWhile_cons_of_pos ha, ih (fun x hx => h x (List.mem_cons_of_mem a hx))]

theorem parseInt10_digits (l : List Char) (hne : l ≠ []) (hd : ∀ c ∈ l, c.isDigit = true) :
    parseInt10 l = some (digitsToNat l : Int) := by
  cases l with
  | nil => exact absurd rfl hne
  | cons c cs =>
    have hc := hd c (List.mem_cons_self c cs)
    have hws := not_ws_of_isDigit c hc
    have hb := isDigit_bounds c hc
    have hdrop : (c :: cs).dropWhile isJsWhitespace = c :: cs :=
      List.dropWhile_cons_of_neg (by simp [hws])
    have htake := takeWhile_eq_self_of_all Char.isDigit (c :: cs) hd
    have hminus : c ≠ '-' := by
      intro e; rw [e] at hb; revert hb; decide
    have hplus : c ≠ '+' := by
      intro e; rw [e] at hb; revert hb; decide
    unfold parseInt10
    rw [hdrop]
    split
    · rename_i heq
      exact absurd (List.cons.inj heq).1 hminus
    · rename_i heq
      exact absurd (List.cons.inj heq).1 hplus
    · simp only [htake]
      simp

/-- C24: for a time string `H:M` whose hour part `H` is a run of decimal digits with
value `h <= 23` and whose minute part holds no colon, `formatTime` returns the hour on
the twelve-hour clock (12 when `h mod 12 = 0`, `h mod 12` otherwise, so between 1 and 12),
a colon, `M` unchanged, a blank and "PM" exactly when `h >= 12`, "AM" otherwise; a missing
or empty string gives "Not specified"; and a non-empty string that does not split at its
colons into exactly two parts is returned unchanged. -/
theorem formatTime_twelve_hour :
    (∀ (H M : List Char), H ≠ [] → (∀ c ∈ H, c.isDigit = true) → ':' ∉ M →
      digitsToNat H ≤ 23 →
      formatTime (some (String.mk (H ++ ':' :: M))) =
        toString (if (digitsToNat H : Int) % 12 = 0 then (12 : Int)
          else (digitsToNat H : Int) % 12) ++ ":" ++ String.mk M ++ " " ++
          (if 12 ≤ digitsToNat H then "PM" else "AM") ∧
      1 ≤ (if (digitsToNat H : Int) % 12 = 0 then (12 : Int)
          else (digitsToNat H : Int) % 12) ∧
      (if (digitsToNat H : Int) % 12 = 0 then (12 : Int)
          else (digitsToNat H : Int) % 12) ≤ 12) ∧
    formatTime none = "Not specified" ∧
    formatTime (some "") = "Not specified" ∧
    (∀ t : String, t ≠ "" → (splitOn ':' t.toList).length ≠ 2 → formatTime (some t) = t) := by
  refine ⟨?_, rfl, rfl, ?_⟩
  · intro H M hne hd hM _
    have hH : ':' ∉ H := by
      intro hmem
      have := hd _ hmem
      revert this
      decide
    have hsplit : splitOn ':' (H ++ ':' :: M) = [H, M] := by
      rw [splitOn_append_sep ':' H M hH, splitOn_of_not_mem ':' M hM]
    have hparse := parseInt10_digits H hne hd
    have hnonempty : (String.mk (H ++ ':' :: M) == "") = false := by
      rw [beq_eq_false_iff_ne]
      intro e
      have := congrArg String.toList e
      simp at this
    have hmod : (digitsToNat H : Int).tmod 12 = (digitsToNat H : Int) % 12 :=
      Int.tmod_eq_emod (Int.ofNat_nonneg _) (by decide)
    refine ⟨?_, ?_, ?_⟩
    · simp only [formatTime, hnonempty, Bool.false_eq_true, if_false]
      rw [show (String.mk (H ++ ':' :: M)).toList = H ++ ':' :: M from rfl, hsplit]
      simp only [hparse, hmod]
      by_cases h12 : 12 ≤ digitsToNat H
      · have h12i : (12 : Int) ≤ (digitsToNat H : Int) := by exact_mod_cast h12
        rw [if_pos h12i, if_pos h12]
      · have h12i : ¬ (12 : Int) ≤ (digitsToNat H : Int) := by
          intro h
          exact h12 (by exact_mod_cast h)
        rw [if_neg h12i, if_neg h12]
    · split <;> omega
    · split <;> omega
  · intro t hne hlen
    have hb : (t == "") = false := by
      rw [beq_eq_false_iff_ne]; exact hne
    simp only [formatTime, hb, Bool.false_eq_true, if_false]
    split
    · rename_i h m heq
      rw [heq] at hlen
      exact absurd rfl hlen
    · rfl

/-- The time "18:30" is shown as "6:30 PM". -/
theorem formatTime_twelve_hour_witness :
    formatTime (some "18:30") = "6:30 PM" :=
  (formatTime_twelve_hour.1 ['1', '8'] ['3', '0'] (by decide) (by decide) (by decide)
    (by decide)).1
end PrivateTicket

namespace News

open MyTickets (truthy)

/-! ## Post links -/

theorem char_scalar (c : Char) :
    c.toNat < 0xD800 ∨ (0xDFFF < c.toNat ∧ c.toNat < 0x110000) := c.valid

theorem hexValue_hexDigit (n : Nat) (h : n < 16) : hexValue (hexDigit n) = some n := by
  revert n
  decide

theorem hexDigit_ne_slash (n : Nat) (h : n < 16) : hexDigit n ≠ '/' := by
  revert n
  decide

theorem uriTokens_percentEscape (b : Nat) (hb : b < 256) (rest : List Char) :
    uriTokens (percentEscape b ++ rest) =
      (uriTokens rest).map (fun ts => UriToken.octet b :: ts) := by
  have h1 := hexValue_hexDigit (b / 16) (by omega)
  have h2 := hexValue_hexDigit (b % 16) (Nat.mod_lt _ (by decide))
  have h3 : 16 * (b / 16) + b % 16 = b := Nat.div_add_mod b 16
  simp [percentEscape, uriTokens, h1, h2, h3]

theorem uriTokens_escapes (bs : List Nat) (hbs : ∀ b ∈ bs, b < 256) (rest : List Char) :
    uriTokens (bs.flatMap percentEscape ++ rest) =
      (uriTokens rest).map (fun ts => bs.map UriToken.octet ++ ts) := by
  induction bs with
  | nil => simp
  | cons b bs ih =>
    have hb := hbs b (List.mem_cons_self b bs)
    have hrest := ih (fun x hx => hbs x (List.mem_cons_of_mem b hx))
    rw [List.flatMap_cons, List.append_assoc, uriTokens_percentEscape b hb, hrest]
    cases uriTokens rest <;> simp

theorem utf8Octets_lt (c : Char) : ∀ b ∈ utf8Octets c, b < 256 := by
  have hv := char_scalar c
  intro b hb
  unfold utf8Octets at hb
  simp only at hb
  split at hb
  · simp at hb; omega
  · split at hb
    · simp at hb; omega
    · split at hb
      · simp at hb; omega
      · simp at hb; omega

theorem not_unreserved_percent (c : Char) (h : isUriUnreserved c = true) : c ≠ '%' := by
  intro e
  rw [e] at h
  revert h
  decide

theorem not_unreserved_slash (c : Char) (h : isUriUnreserved c = true) : c ≠ '/' := by
  intro e
  rw [e] at h
  revert h
  decide

theorem uriTokens_encodeChars (cs : List Char) :
    uriTokens (encodeChars cs) = some (cs.flatMap encodedTokens) := by
  induction cs with
  | nil => rfl
  | cons c cs ih =>
    simp only [encodeChars, List.flatMap_cons, encodedTokens]
    by_cases hu : isUriUnreserved c = true
    · have hp := not_unreserved_percent c hu
      simp only [hu, if_true, List.singleton_append]
      rw [uriTokens.eq_def]
      simp only [if_neg hp, ih, Option.map_some']
    · simp only [hu, Bool.false_eq_true, if_false]
      rw [uriTokens_escapes _ (utf8Octets_lt c), ih]
      simp

theorem decodeFrom_lit (c : Char) (rest : List UriToken) :
    decodeFrom none (UriToken.lit c :: rest) =
      (decodeFrom none rest).map (fun cs => c :: cs) := by
  rw [decodeFrom]

theorem decodeFrom_lead (b : Nat) (rest : List UriToken) :
    decodeFrom none (UriToken.octet b :: rest) =
      if b < 0x80 then (decodeFrom none rest).map (fun cs => Char.ofNat b :: cs)
      else if 0xC0 ≤ b ∧ b < 0xE0 then decodeFrom (some ⟨1, b - 0xC0, 0x80⟩) rest
      else if 0xE0 ≤ b ∧ b < 0xF0 then decodeFrom (some ⟨2, b - 0xE0, 0x800⟩) rest
      else if 0xF0 ≤ b ∧ b < 0xF8 then decodeFrom (some ⟨3, b - 0xF0, 0x10000⟩) rest
      else none := by
  rw [decodeFrom]

theorem decodeFrom_more (p : Pending) (b : Nat) (rest : List UriToken)
    (hb : 0x80 ≤ b ∧ b < 0xC0) (hn : ¬ p.need ≤ 1) :
    decodeFrom (some p) (UriToken.octet b :: rest) =
      decodeFrom (some ⟨p.need - 1, p.bits * 64 + (b - 0x80), p.lo⟩) rest := by
  rw [decodeFrom]
  simp only [continuation, if_pos hb, if_neg hn]

theorem decodeFrom_last (p : Pending) (b : Nat) (rest : List UriToken) (c : Char)
    (hb : 0x80 ≤ b ∧ b < 0xC0) (hn : p.need ≤ 1)
    (hv : p.bits * 64 + (b - 0x80) = c.toNat) (hlo : p.lo ≤ c.toNat) :
    decodeFrom (some p) (UriToken.octet b :: rest) =
      (decodeFrom none rest).map (fun cs => c :: cs) := by
  have hs : p.lo ≤ c.toNat ∧ (c.toNat < 0xD800 ∨ (0xDFFF < c.toNat ∧ c.toNat < 0x110000)) :=
    ⟨hlo, char_scalar c⟩
  rw [decodeFrom]
  simp only [continuation, if_pos hb, if_pos hn, scalarOf, hv, if_pos hs, Char.ofNat_toNat]

theorem decodeTokens_octets (c : Char) (rest : List UriToken) :
    decodeFrom none ((utf8Octets c).map UriToken.octet ++ rest) =
      (decodeFrom none rest).map (fun cs => c :: cs) := by
  have hv := char_scalar c
  have hc : Char.ofNat c.toNat = c := Char.ofNat_toNat c
  unfold utf8Octets
  simp only
  split
  · rename_i h1
    simp only [List.map_cons, List.map_nil, List.cons_append, List.nil_append]
    rw [decodeFrom_lead, if_pos h1, hc]
  · split
    · rename_i h1 h2
      simp only [List.map_cons, List.map_nil, List.cons_append, List.nil_append]
      rw [decodeFrom_lead, if_neg (by omega), if_pos (by omega)]
      exact decodeFrom_last _ _ _ c (by omega) (by simp) (by simp only; omega)
        (by simp only; omega)
    · split
      · rename_i h1 h2 h3
        simp only [List.map_cons, List.map_nil, List.cons_append, List.nil_append]
        rw [decodeFrom_lead, if_neg (by omega), if_neg (by omega), if_pos (by omega),
          decodeFrom_more _ _ _ (by omega) (by simp)]
        exact decodeFrom_last _ _ _ c (by omega) (by simp) (by simp only; omega)
          (by simp only; omega)
      · rename_i h1 h2 h3
        simp only [List.map_cons, List.map_nil, List.cons_append, List.nil_append]
        rw [decodeFrom_lead, if_neg (by omega), if_neg (by omega), if_neg (by omega),
          if_pos (by omega), decodeFrom_more _ _ _ (by omega) (by simp),
          decodeFrom_more _ _ _ (by omega) (by simp)]
        exact decodeFrom_last _ _ _ c (by omega) (by simp) (by simp only; omega)
          (by simp only; omega)

theorem decodeTokens_encoded (cs : List Char) :
    decodeFrom none (cs.flatMap encodedTokens) = some cs := by
  induction cs with
  | nil => rfl
  | cons c cs ih =>
    rw [List.flatMap_cons]
    by_cases hu : isUriUnreserved c = true
    · have hb : encodedTokens c = [UriToken.lit c] := by simp [encodedTokens, hu]
      rw [hb, List.singleton_append, decodeFrom_lit, ih]
      rfl
    · have hb : encodedTokens c = (utf8Octets c).map UriToken.octet := by
        simp [encodedTokens, hu]
      rw [hb, decodeTokens_octets, ih]
      rfl

theorem decode_encode (s : String) : decodeURIComponent (encodeURIComponent s) = some s := by
  unfold decodeURIComponent encodeURIComponent
  rw [show (String.mk (encodeChars s.toList)).toList = encodeChars s.toList from rfl,
    uriTokens_encodeChars]
  simp only [Option.some_bind, decodeTokens, decodeTokens_encoded, Option.map_some']
  cases s
  rfl

theorem no_slash_encodeChars (cs : List Char) : '/' ∉ encodeChars cs := by
  induction cs with
  | nil => simp [encodeChars]
  | cons c cs ih =>
    simp only [encodeChars, List.mem_append, not_or]
    refine ⟨?_, ih⟩
    by_cases hu : isUriUnreserved c = true
    · simp only [hu, if_true, List.mem_singleton]
      exact fun e => not_unreserved_slash c hu e.symm
    · simp only [hu, Bool.false_eq_true, if_false, List.mem_flatMap, not_exists, not_and]
      intro b hb256 hmem
      have hlt := utf8Octets_lt c b hb256
      simp only [percentEscape, List.mem_cons, List.mem_singleton, List.not_mem_nil,
        or_false] at hmem
      rcases hmem with h | h | h
      · revert h; decide
      · exact hexDigit_ne_slash (b / 16) (by omega) h.symm
      · exact hexDigit_ne_slash (b % 16) (Nat.mod_lt _ (by decide)) h.symm

theorem routeParam_getPostUrl (postSlug postId : Option String) :
    routeParam (getPostUrl postSlug postId) =
      some (encodeURIComponent (linkPath postSlug postId)) := by
  have hl : (getPostUrl postSlug postId).toList =
      "/news/".toList ++ encodeChars (linkPath postSlug postId).toList := by
    simp [getPostUrl, encodeURIComponent]
  have hpre : "/news/".toList.isPrefixOf (getPostUrl postSlug postId).toList = true := by
    rw [hl, List.isPrefixOf_iff_prefix]
    exact List.prefix_append _ _
  have hdrop : (getPostUrl postSlug postId).toList.drop 6 =
      encodeChars (linkPath postSlug postId).toList := by
    rw [hl]
    exact List.drop_left' rfl
  have hno := no_slash_encodeChars (linkPath postSlug postId).toList
  unfold routeParam
  rw [hdrop, hpre]
  simp only [hno, not_false_eq_true, and_self, if_true]
  rfl

/-- C22: `decodeURIComponent` undoes `encodeURIComponent` on every string; hence the slug
the detail page reads from the link `getPostUrl` builds is the value the list linked
to: the post slug when that is non-empty, and the post id when the slug is empty or
missing. -/
theorem post_link_round_trip (s : String) (postSlug postId : Option String) :
    decodeURIComponent (encodeURIComponent s) = some s ∧
    detailSlug (getPostUrl postSlug postId) = some (linkPath postSlug postId) ∧
    (∀ slug : String, slug ≠ "" → postSlug = some slug →
      detailSlug (getPostUrl postSlug postId) = some slug) ∧
    (∀ i : String, truthy postSlug = false → postId = some i →
      detailSlug (getPostUrl postSlug postId) = some i) := by
  have hd : detailSlug (getPostUrl postSlug postId) = some (linkPath postSlug postId) := by
    unfold detailSlug
    rw [routeParam_getPostUrl, Option.some_bind, decode_encode]
  refine ⟨decode_encode s, hd, ?_, ?_⟩
  · intro slug hne hs
    rw [hd, hs]
    simp [linkPath, truthy, hne]
  · intro i ht hi
    rw [hd]
    simp [linkPath, ht, hi]

/-- A slug with accents, a percent sign, a slash and a blank comes back unchanged, and a
post with an empty slug is looked up by its id. -/
theorem post_link_round_trip_witness :
    detailSlug (getPostUrl (some "été 100%/a b") (some "7f3a-9c21")) = some "été 100%/a b" ∧
    detailSlug (getPostUrl (some "") (some "7f3a-9c21")) = some "7f3a-9c21" :=
  ⟨(post_link_round_trip "" (some "été 100%/a b") (some "7f3a-9c21")).2.2.1 _ (by decide) rfl,
   (post_link_round_trip "" (some "") (some "7f3a-9c21")).2.2.2 _ rfl rfl⟩
end News
